import Mathlib

/-!
Verification development for the SmartBudgetAI core: a shallow embedding of
the transaction-classification, budget-scoping, pattern-detection,
savings-goal-synthesis and chat-intent-routing code, together with theorems
settling the frozen claims about it.

Modelling conventions:
* JS numbers are rationals (ℚ); a possibly-NaN number is `Option ℚ`
  (`none` = NaN), and JS comparisons on NaN are `false`.
* JS strings are Lean `String`s; `String.prototype.includes`,
  `toLowerCase`, `trim`, `split` are re-implemented below.  `toLowerCase`
  is modelled on ASCII plus the German letters Ä/Ö/Ü that the code's
  `normalize` cares about.
* Dates are calendar triples; `Date.getTime` is milliseconds since epoch
  computed from the civil calendar.  The deployment timezone is taken to
  be UTC, so local-time and UTC accessors coincide.
* External capabilities (the LLM completion call, `JSON.parse`,
  translation, the persistence layer) are inputs: oracles passed as
  function arguments, or the goal store modelled as a plain list.
-/

namespace SmartBudget

/-! ### JS string primitives -/

/-- Model of `String.prototype.toLowerCase` restricted to ASCII plus the
uppercase umlauts that feed the code's `normalize`. -/
def jsLower (c : Char) : Char :=
  if c = 'Ä' then 'ä' else if c = 'Ö' then 'ö' else if c = 'Ü' then 'ü'
  else c.toLower

def jsStrLower (s : String) : String :=
  String.mk (s.data.map jsLower)

/-- Does `l` start with `pat`? -/
def listStartsWith : List Char → List Char → Bool
  | _, [] => true
  | [], _ :: _ => false
  | a :: as, b :: bs => a = b && listStartsWith as bs

/-- Does `pat` occur as a contiguous subsequence of `l`? -/
def listContainsSeq : List Char → List Char → Bool
  | [], pat => listStartsWith [] pat
  | l@(_ :: t), pat => listStartsWith l pat || listContainsSeq t pat

/-- Model of `String.prototype.includes`. -/
def strIncludes (s sub : String) : Bool :=
  listContainsSeq s.data sub.data

def expandUmlaut (c : Char) : String :=
  if c = 'ä' then "ae" else if c = 'ö' then "oe" else if c = 'ü' then "ue"
  else if c = 'ß' then "ss" else String.mk [c]

/-- `normalize` from the chat route: lower-case, then transliterate
ä/ö/ü/ß to ae/oe/ue/ss. -/
def normalize (text : String) : String :=
  String.join ((jsStrLower text).data.map expandUmlaut)

/-- Model of `String.prototype.trim`. -/
def jsTrim (s : String) : String :=
  String.mk (((s.data.dropWhile Char.isWhitespace).reverse.dropWhile
    Char.isWhitespace).reverse)

/-- `String.prototype.slice(0, n)` (ASCII widths; kernel-reducible stand-in
for `String.take`). -/
def strTake (s : String) (n : Nat) : String :=
  String.mk (s.data.take n)

/-- `Array.prototype.join(sep)`. -/
def strIntercalate (sep : String) : List String → String
  | [] => ""
  | [s] => s
  | s :: rest => s ++ sep ++ strIntercalate sep rest

/-- `s.split('-')`. -/
def splitDash (s : String) : List String :=
  (s.data.splitOn '-').map String.mk

/-! ### JS number primitives -/

def digitsToNat (cs : List Char) : Nat :=
  cs.foldl (fun n c => n * 10 + (c.toNat - 48)) 0

def allDigits (cs : List Char) : Bool :=
  cs.all (fun c => c.isDigit)

/-- Model of the `Number(string)` conversion on the numeral shapes the code
produces: optional sign, decimal digits, optional fractional part; the empty
string converts to 0; anything else (including `undefined`) is NaN = `none`.
(Exponents, whitespace and hex numerals do not occur in this codebase.) -/
def jsNumber (s : String) : Option ℚ :=
  let cs := s.data
  if cs.isEmpty then some 0 else
  let sgn : ℚ × List Char :=
    match cs with
    | '-' :: r => (-1, r)
    | '+' :: r => (1, r)
    | _ => (1, cs)
  match (sgn.2).splitOn '.' with
  | [ip] =>
      if ip ≠ [] ∧ allDigits ip then some (sgn.1 * digitsToNat ip) else none
  | [ip, fp] =>
      if allDigits ip ∧ allDigits fp ∧ (ip ≠ [] ∨ fp ≠ []) then
        some (sgn.1 * ((digitsToNat ip : ℚ) +
          (digitsToNat fp : ℚ) / (10 : ℚ) ^ fp.length))
      else none
  | _ => none

/-- `Number` applied to a possibly-`undefined` string. -/
def jsNumberOpt : Option String → Option ℚ
  | none => none
  | some s => jsNumber s

/-- `parseFloat` as used on the deposit-amount token `\d+([.,]\d{1,2})?`
(after the comma is replaced by a dot); on these token shapes `parseFloat`
agrees with `Number`. -/
def parseFloatQ (s : String) : Option ℚ := jsNumber s

/-- `Math.round` / `toFixed(0)` rounding: nearest integer, ties toward +∞. -/
def jsRound (q : ℚ) : Int := ⌊q + 1 / 2⌋

def pad2 (n : Nat) : String :=
  if n < 10 then "0" ++ toString n else toString n

/-- `Number.prototype.toFixed(2)`. -/
def fmt2 (q : ℚ) : String :=
  let c : Int := ⌊q * 100 + 1 / 2⌋
  let sgn := if c < 0 then "-" else ""
  let a := c.natAbs
  sgn ++ toString (a / 100) ++ "." ++ pad2 (a % 100)

/-- `Number.prototype.toFixed(0)`. -/
def fmt0 (q : ℚ) : String := toString (jsRound q)

/-! ### Possibly-NaN numbers -/

/-- A JS number that may be NaN (`none`). -/
abbrev JsNum := Option ℚ

def jbin (f : ℚ → ℚ → ℚ) : JsNum → JsNum → JsNum
  | some a, some b => some (f a b)
  | _, _ => none

def jadd : JsNum → JsNum → JsNum := jbin (· + ·)
def jsub : JsNum → JsNum → JsNum := jbin (· - ·)
def jmul : JsNum → JsNum → JsNum := jbin (· * ·)

/-- JS division; division by zero (JS ±Infinity) is modelled as `none`;
every division in the embedded code is guarded so that case is unreachable. -/
def jdiv : JsNum → JsNum → JsNum
  | some a, some b => if b = 0 then none else some (a / b)
  | _, _ => none

/-- `Math.max` (NaN-propagating). -/
def jmax : JsNum → JsNum → JsNum := jbin max
/-- `Math.min` (NaN-propagating). -/
def jmin : JsNum → JsNum → JsNum := jbin min
/-- `Math.ceil`. -/
def jceil : JsNum → JsNum
  | some q => some (⌈q⌉ : ℚ)
  | none => none

/-- `a > b` in JS (false when either side is NaN). -/
def jgt : JsNum → JsNum → Bool
  | some a, some b => decide (b < a)
  | _, _ => false

/-- `a < b` in JS (false when either side is NaN). -/
def jlt : JsNum → JsNum → Bool
  | some a, some b => decide (a < b)
  | _, _ => false

/-- `a <= b` in JS (false when either side is NaN). -/
def jle : JsNum → JsNum → Bool
  | some a, some b => decide (a ≤ b)
  | _, _ => false

def jsToFixed2 : JsNum → String
  | none => "NaN"
  | some q => fmt2 q

def jsToFixed0 : JsNum → String
  | none => "NaN"
  | some q => fmt0 q

/-! ### Calendar dates -/

/-- A civil calendar date (what `getFullYear` / 1-based month /
`getDate` report). -/
structure YMD where
  year : Int
  month : Int
  day : Int
deriving DecidableEq

/-- Days since 1970-01-01 of a civil date (Gregorian, proleptic). -/
def daysFromCivil (x : YMD) : Int :=
  let y := if x.month ≤ 2 then x.year - 1 else x.year
  let era := y.fdiv 400
  let yoe := y - era * 400
  let mp := (x.month + 9) % 12
  let doy := (153 * mp + 2).fdiv 5 + x.day - 1
  let doe := yoe * 365 + yoe.fdiv 4 - yoe.fdiv 100 + doy
  era * 146097 + doe - 719468

def msPerDay : ℚ := 86400000

/-- `Date.prototype.getTime` of a civil date at midnight. -/
def ymdToMs (x : YMD) : ℚ := msPerDay * (daysFromCivil x : ℚ)

/-- `new Date(year, monthIndex, day)` with JS month-overflow normalization
(`monthIndex` is 0-based and may exceed 11; `day` 0 is the last day of the
previous month, which `daysFromCivil` already handles). -/
def jsDateYMD (y m0 d : Int) : YMD :=
  { year := y + m0.fdiv 12, month := m0.emod 12 + 1, day := d }

/-- Parse of the ISO date strings this code builds: `YYYY-MM-DD` or
`YYYY-MM` (the latter meaning day 1); anything else is an invalid date. -/
def parseDateParts (s : String) : Option YMD :=
  match s.data.splitOn '-' with
  | [ys, ms] =>
      if ys ≠ [] ∧ allDigits ys ∧ ms ≠ [] ∧ allDigits ms
      then some ⟨digitsToNat ys, digitsToNat ms, 1⟩ else none
  | [ys, ms, ds] =>
      if ys ≠ [] ∧ allDigits ys ∧ ms ≠ [] ∧ allDigits ms
          ∧ ds ≠ [] ∧ allDigits ds
      then some ⟨digitsToNat ys, digitsToNat ms, digitsToNat ds⟩
      else none
  | _ => none

/-- `new Date(string).getTime()`: NaN for an invalid date. -/
def parseDateMs (s : String) : JsNum :=
  (parseDateParts s).map ymdToMs

/-- `Date.prototype.getDay` (0 = Sunday); 1970-01-01 was a Thursday. -/
def dayOfWeek (x : YMD) : Nat :=
  ((daysFromCivil x + 4).emod 7).toNat

/-- ISO rendering `YYYY-MM-DD` (used for `toISOString().slice(0, 10)`). -/
def ymdToISO (x : YMD) : String :=
  toString x.year ++ "-" ++ pad2 x.month.toNat ++ "-" ++ pad2 x.day.toNat

/-! ### Stable descending sort (model of `Array.prototype.sort` with a
`(a, b) => keyOf b - keyOf a` comparator; V8's sort is stable, and for a
total preorder comparator the stable sorted result is unique, so stable
insertion sort computes it). -/

def insertDesc {α : Type} (key : α → ℚ) (a : α) : List α → List α
  | [] => [a]
  | b :: bs => if key b ≤ key a then a :: b :: bs else b :: insertDesc key a bs

def sortByDesc {α : Type} (key : α → ℚ) : List α → List α
  | [] => []
  | a :: as => insertDesc key a (sortByDesc key as)

theorem mem_insertDesc {α : Type} (key : α → ℚ) (a x : α) (l : List α) :
    x ∈ insertDesc key a l ↔ x = a ∨ x ∈ l := by
  induction l with
  | nil => simp [insertDesc]
  | cons b bs ih =>
      by_cases h : key b ≤ key a
      · simp [insertDesc, h]
      · simp only [insertDesc, if_neg h, List.mem_cons, ih]
        tauto

theorem mem_sortByDesc {α : Type} (key : α → ℚ) (x : α) (l : List α) :
    x ∈ sortByDesc key l ↔ x ∈ l := by
  induction l with
  | nil => simp [sortByDesc]
  | cons a as ih => simp [sortByDesc, mem_insertDesc, ih]

theorem pairwise_insertDesc {α : Type} (key : α → ℚ) (a : α) (l : List α)
    (h : l.Pairwise (fun x y => key y ≤ key x)) :
    (insertDesc key a l).Pairwise (fun x y => key y ≤ key x) := by
  induction l with
  | nil => simp [insertDesc]
  | cons b bs ih =>
      rcases List.pairwise_cons.mp h with ⟨hb, hbs⟩
      by_cases hle : key b ≤ key a
      · rw [insertDesc, if_pos hle]
        refine List.pairwise_cons.mpr ⟨?_, h⟩
        intro x hx
        rcases List.mem_cons.mp hx with rfl | hx
        · exact hle
        · exact le_trans (hb x hx) hle
      · rw [insertDesc, if_neg hle]
        refine List.pairwise_cons.mpr ⟨?_, ih hbs⟩
        intro x hx
        rcases (mem_insertDesc key a x bs).mp hx with rfl | hx
        · exact le_of_not_le hle
        · exact hb x hx

theorem pairwise_sortByDesc {α : Type} (key : α → ℚ) (l : List α) :
    (sortByDesc key l).Pairwise (fun x y => key y ≤ key x) := by
  induction l with
  | nil => simp [sortByDesc]
  | cons a as ih => exact pairwise_insertDesc key a _ ih

/-- The head of the descending sort dominates every element of the list. -/
theorem sortByDesc_head_max {α : Type} (key : α → ℚ) (l : List α) (h : α)
    (t : List α) (hs : sortByDesc key l = h :: t) :
    h ∈ l ∧ ∀ x ∈ l, key x ≤ key h := by
  constructor
  · have : h ∈ sortByDesc key l := by rw [hs]; exact List.mem_cons_self h t
    exact (mem_sortByDesc key h l).mp this
  · intro x hx
    have hx' : x ∈ sortByDesc key l := (mem_sortByDesc key x l).mpr hx
    rw [hs] at hx'
    rcases List.mem_cons.mp hx' with rfl | hx'
    · exact le_refl _
    · have hp := pairwise_sortByDesc key l
      rw [hs] at hp
      exact (List.pairwise_cons.mp hp).1 x hx'

/-! ### Data model (`lib/types`) -/

inductive DecisionLabel where
  | useful
  | unnecessary
deriving DecidableEq

/-- A fully classified transaction. -/
structure Transaction where
  id : String
  userId : String
  date : String
  merchant : String
  amount : ℚ
  rawCategory : Option String
  justification : Option String
  category : String
  isImpulse : Bool
  decisionLabel : DecisionLabel
  decisionExplanation : String
deriving DecidableEq

/-- A transaction before classification
(`Omit<Transaction, 'category' | 'isImpulse' | ...>`). -/
structure RawTransaction where
  id : String
  userId : String
  date : String
  merchant : String
  amount : ℚ
  rawCategory : Option String
  justification : Option String
deriving DecidableEq

structure SavingsGoal where
  id : String
  userId : String
  title : String
  targetAmount : ℚ
  targetDate : String
  currentSavedAmount : ℚ
  rules : List String
  rulesEn : Option (List String)
deriving DecidableEq

/-! ### JS values (the result of `JSON.parse`) -/

inductive JsValue where
  | jnull
  | jbool (b : Bool)
  | jnum (q : ℚ)
  | jstr (s : String)
  | jarr (elems : List JsValue)
  | jobj (fields : List (String × JsValue))

/-- JS truthiness of a possibly-`undefined` value (`none` = `undefined`). -/
def truthy : Option JsValue → Bool
  | none => false
  | some .jnull => false
  | some (.jbool b) => b
  | some (.jnum q) => decide (q ≠ 0)
  | some (.jstr s) => decide (s ≠ "")
  | some (.jarr _) => true
  | some (.jobj _) => true

/-- Property access `v.k` (first binding wins, as in parsed JSON). -/
def getField : JsValue → String → Option JsValue
  | .jobj fields, k => (fields.find? (fun p => decide (p.1 = k))).map (fun p => p.2)
  | _, _ => none

/-- `v || dflt`. -/
def jsOr (v : Option JsValue) (dflt : JsValue) : JsValue :=
  match v with
  | some x => if truthy (some x) then x else dflt
  | none => dflt

/-- `v === "lit"` (strict string equality). -/
def isStrEq : Option JsValue → String → Bool
  | some (.jstr s), t => decide (s = t)
  | _, _ => false

/-! ### Classification Engine (`agents.ts`) -/

structure ImpulseClassificationOutput where
  category : JsValue
  isImpulse : Bool
  decisionLabel : DecisionLabel
  decisionExplanation : JsValue

/-- `fallbackClassification`: the deterministic keyword ladder used when the
completion capability is unavailable or unparseable. -/
def fallbackClassification (t : RawTransaction) : ImpulseClassificationOutput :=
  let merchant := jsStrLower t.merchant
  let inc := fun kw => strIncludes merchant kw
  let cid : String × Bool × DecisionLabel :=
    if inc "lohn" || inc "gehalt" || inc "salary" || inc "payroll" then
      ("Lohn", false, .useful)
    else if inc "bonus" || inc "nebenjob" || inc "zahlungseingang" then
      ("Weitere Einnahmen", false, .useful)
    else if inc "sbb" || inc "bvg" || inc "db" || inc "tram" || inc "bus" then
      ("Mobilität - Öffentlicher Verkehr", false, .useful)
    else if inc "shell" || inc "avia" || inc "tank" || inc "parking" || inc "auto" then
      ("Mobilität - Auto", false, .useful)
    else if inc "coop" || inc "migros" || inc "aldi" || inc "lidl" then
      ("Lebensmittel", false, .useful)
    else if inc "uber eats" || inc "just eat" || inc "pizza" || inc "restaurant"
        || inc "bar" || inc "cafe" then
      ("Gastronomie", decide (50 < t.amount),
        if 80 < t.amount then .unnecessary else .useful)
    else if inc "zalando" || inc "h&m" || inc "zara" || inc "shopping" then
      let imp := decide (80 < t.amount)
      ("Shopping", imp, if imp then .unnecessary else .useful)
    else if inc "netflix" || inc "spotify" || inc "kino" || inc "cinema" then
      ("Unterhaltung", false, .useful)
    else if inc "krankenkasse" || inc "arzt" || inc "apotheke" || inc "zahnarzt" then
      ("Gesundheit", false, .useful)
    else if inc "miete" || inc "stie" || inc "vermieter" || inc "wohnung" then
      ("Wohnen", false, .useful)
    else if inc "steuer" || inc "tax" then
      ("Steuern", false, .useful)
    else if inc "sparplan" || inc "etf" || inc "anlage" || inc "vorsorge" then
      ("Sparen & Anlegen", false, .useful)
    else if inc "abo" || inc "subscription" then
      ("Abos", false, .useful)
    else if inc "reise" || inc "air" || inc "hotel" then
      ("Reisen", false, .useful)
    else if inc "bargeld" || inc "atm" then
      ("Bargeldbezug", false, .useful)
    else if inc "zahlung" || inc "invoice" || inc "rechnung" then
      ("Zahlungen", false, .useful)
    else if inc "persönlich" || inc "persoenlich" || inc "friseur" || inc "kosmetik" then
      ("Persönliches", false, .useful)
    else if inc "bildung" || inc "studien" || inc "studium" || inc "schule"
        || inc "uni" || inc "kurs" || inc "bfh" then
      ("Bildung", false, .useful)
    else ("Allgemeines", false, .useful)
  let decisionExplanation :=
    if cid.2.1 then
      "Spontaner Kauf bei " ++ t.merchant ++
        ". Überlege beim nächsten Mal, ob du das wirklich brauchst."
    else
      "Regulärer Kauf bei " ++ t.merchant ++ ". Scheint geplant und sinnvoll zu sein."
  { category := .jstr cid.1
    isImpulse := cid.2.1
    decisionLabel := cid.2.2
    decisionExplanation := .jstr decisionExplanation }

def openBrace : Char := Char.ofNat 123
def closeBrace : Char := Char.ofNat 125

def lastIdxOf (c : Char) (cs : List Char) : Option Nat :=
  match cs.reverse.findIdx? (fun x => decide (x = c)) with
  | some k => some (cs.length - 1 - k)
  | none => none

/-- The regex match `response.match(/\x7b[\s\S]*\x7d/)`: with the greedy
star this is the span from the first opening brace to the last closing
brace, provided the latter comes after the former. -/
def jsonMatchFirst (s : String) : Option String :=
  let cs := s.data
  match cs.findIdx? (fun c => decide (c = openBrace)), lastIdxOf closeBrace cs with
  | some i, some j =>
      if i < j then some (String.mk ((cs.drop i).take (j - i + 1))) else none
  | _, _ => none

/-- `impulseClassificationAgent`, abstracted over the external pieces: the
completion call's outcome (`none` = the call threw, which the code catches)
and `JSON.parse` (`none` = a parse exception, also caught).  When a JSON
object is found and parses, the parsed fields are defaulted as in the code;
on every failure path the result is `fallbackClassification`. -/
def impulseClassificationAgent (parseJSON : String → Option JsValue)
    (response : Option String) (t : RawTransaction) : ImpulseClassificationOutput :=
  match response with
  | none => fallbackClassification t
  | some resp =>
      match jsonMatchFirst resp with
      | some matched =>
          match parseJSON matched with
          | some parsed =>
              { category := jsOr (getField parsed "category") (.jstr "Allgemeines")
                isImpulse := truthy (getField parsed "isImpulse")
                decisionLabel :=
                  if isStrEq (getField parsed "decisionLabel") "unnecessary"
                  then .unnecessary else .useful
                decisionExplanation :=
                  jsOr (getField parsed "decisionExplanation")
                    (.jstr "Keine Erklärung verfügbar.") }
          | none => fallbackClassification t
      | none => fallbackClassification t

/-! ### Budget scoping helpers (`agents.ts`) -/

def isIncomeTransaction (t : Transaction) : Bool :=
  let incomeKeywords := ["lohn", "salaer", "salär", "gehalt", "salary", "payroll",
    "einkommen", "bonus", "wage", "nebenjob", "werkstudent"]
  let text := jsStrLower (strIntercalate " "
    [t.merchant, t.rawCategory.getD "", t.justification.getD ""])
  incomeKeywords.any (fun kw => strIncludes text kw) ||
    decide (t.category = "Einnahmen") || decide (t.category = "Lohn") ||
    decide (t.category = "Weitere Einnahmen")

def isSalaryTransaction (t : Transaction) : Bool :=
  let salaryKeywords := ["lohn", "salaer", "salär", "gehalt", "salary", "payroll",
    "wage", "nebenjob", "werkstudent"]
  let text := jsStrLower (strIntercalate " "
    [t.merchant, t.rawCategory.getD "", t.justification.getD "", t.category])
  salaryKeywords.any (fun kw => strIncludes text kw) || decide (t.category = "Lohn")

inductive Timeframe where
  | month
  | year
  | custom
deriving DecidableEq

inductive BudgetMode where
  | auto
  | manual
deriving DecidableEq

/-- An optional string parameter, with JS truthiness (`undefined` and `""`
are falsy). -/
def truthyStr : Option String → Bool
  | none => false
  | some s => decide (s ≠ "")

/-- JS string `<` (code-unit lexicographic). -/
def listLexLt : List Char → List Char → Bool
  | [], [] => false
  | [], _ :: _ => true
  | _ :: _, [] => false
  | a :: as, b :: bs => if a < b then true else if b < a then false else listLexLt as bs

def strLtJs (a b : String) : Bool := listLexLt a.data b.data

def strStartsWith (s pre : String) : Bool := listStartsWith s.data pre.data

def filterTransactionsByScope (transactions : List Transaction) (month : String)
    (timeframe : Timeframe) (startDate endDate : Option String) : List Transaction :=
  if timeframe = .year then
    transactions.filter (fun t => strStartsWith t.date (strTake month 4))
  else if timeframe = .custom ∧ truthyStr startDate ∧ truthyStr endDate then
    transactions.filter (fun t =>
      !strLtJs t.date (startDate.getD "") && !strLtJs (endDate.getD "") t.date)
  else
    transactions.filter (fun t => strStartsWith t.date month)

/-- `calculateMonthsInScope`: months in the analysed period (NaN-aware). -/
def calculateMonthsInScope (timeframe : Timeframe) (month : String)
    (startDate endDate : Option String) : JsNum :=
  if timeframe = .year then
    jmax (some 1) (jsNumberOpt ((splitDash month).get? 1))
  else if timeframe = .custom ∧ truthyStr startDate ∧ truthyStr endDate then
    let sparts := splitDash (startDate.getD "")
    let eparts := splitDash (endDate.getD "")
    let sy := jsNumberOpt (sparts.get? 0)
    let sm := jsNumberOpt (sparts.get? 1)
    let ey := jsNumberOpt (eparts.get? 0)
    let em := jsNumberOpt (eparts.get? 1)
    let diff := jadd (jadd (jmul (jsub ey sy) (some 12)) (jsub em sm)) (some 1)
    jmax (some 1) diff
  else some 1

def isWithinLastTwelveMonths (monthKey referenceMonth : String) : Bool :=
  let kp := splitDash monthKey
  let rp := splitDash referenceMonth
  match jsNumberOpt (kp.get? 0), jsNumberOpt (kp.get? 1),
      jsNumberOpt (rp.get? 0), jsNumberOpt (rp.get? 1) with
  | some y, some m, some ry, some rm =>
      let diff := (ry - y) * 12 + (rm - m)
      decide (0 ≤ diff ∧ diff < 12)
  | _, _, _, _ => false

/-- Insertion-ordered map update `m.set(k, (m.get(k) || 0) + q)`. -/
def upsertAdd (m : List (String × ℚ)) (k : String) (q : ℚ) : List (String × ℚ) :=
  if m.any (fun p => decide (p.1 = k)) then
    m.map (fun p => if p.1 = k then (p.1, p.2 + q) else p)
  else m ++ [(k, q)]

def inferMonthlySalaryFromHistory (transactions : List Transaction)
    (referenceMonth : String) : ℚ :=
  let salaryTransactions := transactions.filter (fun t => isSalaryTransaction t)
  if salaryTransactions.isEmpty then 0 else
  let incomeByMonth := salaryTransactions.foldl
    (fun m t => upsertAdd m (strTake t.date 7) |t.amount|) []
  let monthlyValues := (incomeByMonth.filter
    (fun p => isWithinLastTwelveMonths p.1 referenceMonth)).map (fun p => p.2)
  if monthlyValues.isEmpty then 0
  else (monthlyValues.foldl (· + ·) 0) / (monthlyValues.length : ℚ)

/-! ### Pattern Detector (`detectPatterns`) -/

def absAmount (t : Transaction) : ℚ := |t.amount|

structure PatternInput where
  transactions : List Transaction
  timeframe : Timeframe
  /-- `budget?: number`; `none` covers both `undefined` and NaN, which the
  guard `budget && budget > 0` treats identically, and the value is unused
  outside that guard. -/
  budget : JsNum
  usedBudget : Option ℚ
  startDate : Option String
  endDate : Option String
  month : Option String

def noSpendingMsg : String := "Noch keine Ausgaben für diesen Zeitraum."

def scopeStartMs (input : PatternInput) : JsNum :=
  if input.timeframe = .custom ∧ truthyStr input.startDate then
    parseDateMs (input.startDate.getD "")
  else if input.timeframe = .year ∧ truthyStr input.month then
    parseDateMs (strTake (input.month.getD "") 4 ++ "-01-01")
  else if truthyStr input.month then
    parseDateMs ((input.month.getD "") ++ "-01")
  else
    match input.transactions with
    | t :: _ => parseDateMs t.date
    | [] => none

def scopeEndMs (input : PatternInput) : JsNum :=
  if input.timeframe = .custom ∧ truthyStr input.endDate then
    parseDateMs (input.endDate.getD "")
  else if input.timeframe = .year ∧ truthyStr input.month then
    parseDateMs (strTake (input.month.getD "") 4 ++ "-12-31")
  else if truthyStr input.month then
    match parseDateParts ((input.month.getD "") ++ "-01") with
    | some x => some (ymdToMs (jsDateYMD x.year x.month 0))
    | none => none
  else
    match input.transactions.getLast? with
    | some t => parseDateMs t.date
    | none => none

def categoryTotals (ts : List Transaction) : List (String × ℚ) :=
  ts.foldl (fun m t => upsertAdd m t.category (absAmount t)) []

structure MerchantAgg where
  count : Nat
  total : ℚ
  amounts : List ℚ
deriving DecidableEq

def upsertMerchant (m : List (String × MerchantAgg)) (k : String) (q : ℚ) :
    List (String × MerchantAgg) :=
  if m.any (fun p => decide (p.1 = k)) then
    m.map (fun p =>
      if p.1 = k then (p.1, ⟨p.2.count + 1, p.2.total + q, p.2.amounts ++ [q]⟩) else p)
  else m ++ [(k, ⟨1, q, [q]⟩)]

def merchantGroups (ts : List Transaction) : List (String × MerchantAgg) :=
  ts.foldl (fun m t => upsertMerchant m t.merchant (absAmount t)) []

/-- `Math.max(...)` over a list; the empty case is unreachable because every
merchant group holds at least one amount. -/
def listMaxD : List ℚ → ℚ
  | [] => 0
  | a :: as => as.foldl max a

def listMinD : List ℚ → ℚ
  | [] => 0
  | a :: as => as.foldl min a

structure RecurringEntry where
  merchant : String
  count : Nat
  avg : ℚ
  varianceRatio : ℚ
deriving DecidableEq

/-- The recurring-payment candidates: merchant groups with ≥ 3 occurrences,
variance ratio ≤ 0.3, sorted by `avg * count` descending. -/
def recurringList (ts : List Transaction) : List RecurringEntry :=
  let cand := ((merchantGroups ts).filter (fun p => decide (3 ≤ p.2.count))).map
    (fun p =>
      let avg := p.2.total / (p.2.count : ℚ)
      let mx := listMaxD p.2.amounts
      let mn := listMinD p.2.amounts
      let varianceRatio := if 0 < avg then (mx - mn) / avg else 1
      RecurringEntry.mk p.1 p.2.count avg varianceRatio)
  sortByDesc (fun r => r.avg * (r.count : ℚ))
    (cand.filter (fun r => decide (r.varianceRatio ≤ 3 / 10)))

def recurringPattern (ts : List Transaction) : List String :=
  match recurringList ts with
  | [] => []
  | r :: _ =>
      ["Wiederkehrende Zahlungen: " ++ r.merchant ++ " (" ++ toString r.count ++
        "x, Ø " ++ fmt2 r.avg ++ " CHF). Prüfe, ob du das Abo brauchst."]

def dayNames : List String :=
  ["Sonntag", "Montag", "Dienstag", "Mittwoch", "Donnerstag", "Freitag", "Samstag"]

/-- The weekday bucket of a transaction.  An invalid date gives
`dayNames[NaN] = undefined`; since that key cannot collide with a real day
name it is flattened to the string `"undefined"`. -/
def dayKey (t : Transaction) : String :=
  match parseDateParts t.date with
  | some x => dayNames.getD (dayOfWeek x) "undefined"
  | none => "undefined"

structure DayAgg where
  total : ℚ
  count : Nat
deriving DecidableEq

def upsertDay (m : List (String × DayAgg)) (k : String) (q : ℚ) :
    List (String × DayAgg) :=
  if m.any (fun p => decide (p.1 = k)) then
    m.map (fun p => if p.1 = k then (p.1, ⟨p.2.total + q, p.2.count + 1⟩) else p)
  else m ++ [(k, ⟨q, 1⟩)]

def daySpending (ts : List Transaction) : List (String × DayAgg) :=
  ts.foldl (fun m t => upsertDay m (dayKey t) (absAmount t)) []

def totalSpentOf (ts : List Transaction) : ℚ :=
  ts.foldl (fun s t => s + absAmount t) 0

/-- `Math.max(1, Math.ceil((end - start) / msPerDay) + 1)`. -/
def totalDaysOf (input : PatternInput) : JsNum :=
  jmax (some 1) (jadd (jceil (jdiv (jsub (scopeEndMs input) (scopeStartMs input))
    (some msPerDay))) (some 1))

def elapsedDaysOf (now : ℚ) (input : PatternInput) : JsNum :=
  jmin (totalDaysOf input) (jmax (some 1)
    (jadd (jceil (jdiv (jsub (some now) (scopeStartMs input)) (some msPerDay)))
      (some 1)))

/-- Pattern 1: top-category share. -/
def topCategoryPattern (ts : List Transaction) : List String :=
  if (categoryTotals ts).isEmpty then [] else
  match sortByDesc (fun p => p.2) (categoryTotals ts) with
  | [] => []
  | (topCategory, topAmount) :: _ =>
      let totalSpent := totalSpentOf ts
      let percentage : Int :=
        if 0 < totalSpent then jsRound (topAmount / totalSpent * 100) else 0
      [topCategory ++ " macht " ++ toString percentage ++
        "% deiner Ausgaben aus (" ++ toString (jsRound topAmount) ++ " CHF)."]

/-- Pattern 2: budget pace / overrun risk (only when a budget is given). -/
def budgetPacePattern (now : ℚ) (input : PatternInput) : List String :=
  match input.budget, input.usedBudget with
  | some b, some used =>
      if 0 < b then
        let elapsedShare := jdiv (elapsedDaysOf now input) (totalDaysOf input)
        let expectedSpend := jmul (some b) elapsedShare
        if jgt (some used) (jmul expectedSpend (some (11 / 10))) then
          let projected := jmul (jdiv (some used) elapsedShare) (some 1)
          ["Budgetwarnung: Du liegst über Plan. Hochrechnung: ~" ++
            jsToFixed0 projected ++ " CHF vs. Budget " ++ fmt0 b ++ " CHF."]
        else if jlt (some used) (jmul expectedSpend (some (4 / 5))) then
          ["Gute Pace: Du liegst unter deinem geplanten Budget-Verlauf."]
        else []
      else []
  | _, _ => []

/-- Pattern 3: first-half vs second-half spending trend. -/
def trendPattern (input : PatternInput) : List String :=
  let scopeStart := scopeStartMs input
  let scopeEnd := scopeEndMs input
  let midTimestamp := jadd scopeStart (jdiv (jsub scopeEnd scopeStart) (some 2))
  let firstHalf := (input.transactions.filter
    (fun t => jle (parseDateMs t.date) midTimestamp)).foldl
    (fun s t => s + absAmount t) 0
  let secondHalf := totalSpentOf input.transactions - firstHalf
  if 0 < firstHalf ∧ firstHalf * (6 / 5) < secondHalf then
    ["Deine Ausgaben steigen in der zweiten Hälfte des Zeitraums. Prüfe wiederkehrende Käufe."]
  else if 0 < secondHalf ∧ secondHalf * (6 / 5) < firstHalf then
    ["Deine Ausgaben waren zu Beginn des Zeitraums höher. Gut, dass du zuletzt sparsamer warst."]
  else []

/-- Pattern 4: impulse rate. -/
def impulsePattern (ts : List Transaction) : List String :=
  let impulseTransactions := ts.filter (fun t => t.isImpulse)
  if impulseTransactions.isEmpty then [] else
  let impulseRate :=
    jsRound ((impulseTransactions.length : ℚ) / (ts.length : ℚ) * 100)
  [toString impulseRate ++
    "% deiner Käufe sind Impulskäufe. Versuche, vor dem Kauf eine Pause einzulegen."]

/-- Pattern 6: costliest weekday. -/
def weekdayPattern (ts : List Transaction) : List String :=
  if (daySpending ts).isEmpty then [] else
  match sortByDesc (fun p => p.2.total) (daySpending ts) with
  | [] => []
  | (mostExpensiveDay, stats) :: _ =>
      let average := stats.total / (stats.count : ℚ)
      [mostExpensiveDay ++ " ist dein teuerster Tag (Durchschnitt " ++
        fmt2 average ++ " CHF)."]

/-- `detectPatterns`; `now` is the current clock reading in epoch
milliseconds (`new Date()` inside the function).  The six candidate
patterns are appended in the source's fixed order and truncated to 3. -/
def detectPatterns (now : ℚ) (input : PatternInput) : List String :=
  if input.transactions.isEmpty then [noSpendingMsg] else
  (topCategoryPattern input.transactions ++ budgetPacePattern now input ++
    trendPattern input ++ impulsePattern input.transactions ++
    recurringPattern input.transactions ++
    weekdayPattern input.transactions).take 3

/-! ### Budget Planner Agent -/

structure BudgetPlannerInput where
  monthlyNetIncome : ℚ
  transactions : List Transaction
  month : String
  timeframe : Timeframe
  budgetMode : BudgetMode
  startDate : Option String
  endDate : Option String

structure BudgetPlannerOutput where
  monthlyBudget : JsNum
  usedBudget : ℚ
  byCategory : List (String × ℚ)
  patterns : List String
  timeframe : Timeframe

def categoryTotalsSigned (ts : List Transaction) : List (String × ℚ) :=
  ts.foldl (fun m t => upsertAdd m t.category t.amount) []

def budgetPlannerAgent (now : ℚ) (input : BudgetPlannerInput) : BudgetPlannerOutput :=
  let scopedTransactions := filterTransactionsByScope input.transactions
    input.month input.timeframe input.startDate input.endDate
  let expenseTransactions := scopedTransactions.filter (fun t => !isIncomeTransaction t)
  let salaryTransactions := scopedTransactions.filter (fun t => isSalaryTransaction t)
  let referenceMonth :=
    match input.endDate with
    | some ed => if ed ≠ "" then strTake ed 7 else input.month
    | none => input.month
  let inferredSalary := inferMonthlySalaryFromHistory input.transactions referenceMonth
  let salarySumInScope := salaryTransactions.foldl (fun s t => s + absAmount t) 0
  let manualBudget : Option ℚ :=
    if input.budgetMode = .manual ∧ 0 < input.monthlyNetIncome then
      some (input.monthlyNetIncome * (3 / 5))
    else none
  let monthsInScope := calculateMonthsInScope input.timeframe input.month
    input.startDate input.endDate
  let manualScopedBudget : Option JsNum :=
    manualBudget.map (fun b => jmul (some b) monthsInScope)
  let scopedBudget : JsNum :=
    if input.budgetMode = .manual then manualScopedBudget.getD (some 0)
    else if 0 < salarySumInScope then some salarySumInScope
    else if 0 < inferredSalary then
      jmul (jmul (some inferredSalary) (some (3 / 5))) monthsInScope
    else jmul (jmul (some input.monthlyNetIncome) (some (3 / 5))) monthsInScope
  let usedBudget := expenseTransactions.foldl (fun s t => s + absAmount t) 0
  let byCategory := sortByDesc (fun p => p.2) (categoryTotalsSigned expenseTransactions)
  let patterns := detectPatterns now
    { transactions := expenseTransactions
      timeframe := input.timeframe
      budget := scopedBudget
      usedBudget := some usedBudget
      startDate := input.startDate
      endDate := input.endDate
      month := some input.month }
  { monthlyBudget := scopedBudget
    usedBudget := usedBudget
    byCategory := byCategory
    patterns := patterns
    timeframe := input.timeframe }

/-! ### Chat Intent Router (`/api/chat` route) -/

def matchGoalByName (normalizedMessage : String) (goals : List SavingsGoal) :
    Option SavingsGoal :=
  goals.find? (fun g => strIncludes normalizedMessage (normalize g.title))

def hasDigit (s : String) : Bool := s.data.any (fun c => c.isDigit)

def detectSavingsGoalIntent (message : String) : Bool :=
  let lowerMessage := normalize message
  let goalKeywords := ["sparen", "sparziel", "ziel", "spare", "save", "saving",
    "savings", "goal", "target"]
  let amountKeywords := ["chf", "franken", "fr.", "eur", "usd", "$", "€", "£"]
  let timeKeywords := ["bis", "monat", "monate", "jahr", "jahre", "tag", "tage",
    "woche", "wochen", "by", "month", "months", "year", "years", "week", "weeks",
    "day", "days", "until"]
  let hasGoalKeyword := goalKeywords.any (fun kw => strIncludes lowerMessage kw)
  let hasAmountKeyword := amountKeywords.any (fun kw => strIncludes lowerMessage kw)
    || hasDigit message
  let hasTimeKeyword := timeKeywords.any (fun kw => strIncludes lowerMessage kw)
  hasGoalKeyword && (hasAmountKeyword || hasTimeKeyword)

/-- The token matched by `/(\d+(?:[.,]\d\x7b1,2\x7d)?)/` starting at a digit:
a maximal digit run, optionally followed by `.` or `,` and one or two
digits. -/
def numTokenFrom (cs : List Char) : List Char :=
  let ds := cs.takeWhile Char.isDigit
  let rest := cs.drop ds.length
  match rest with
  | p :: d1 :: more =>
      if (p = '.' ∨ p = ',') ∧ d1.isDigit then
        match more with
        | d2 :: _ => if d2.isDigit then ds ++ [p, d1, d2] else ds ++ [p, d1]
        | [] => ds ++ [p, d1]
      else ds
  | _ => ds

def firstAmountToken : List Char → Option (List Char)
  | [] => none
  | c :: rest =>
      if c.isDigit then some (numTokenFrom (c :: rest)) else firstAmountToken rest

/-- First match of the deposit-amount regex in the message. -/
def firstAmountMatch (s : String) : Option String :=
  (firstAmountToken s.data).map String.mk

/-- `token.replace(',', '.')` (the token holds at most one comma). -/
def replaceCommaDot (s : String) : String :=
  String.mk (s.data.map (fun c => if c = ',' then '.' else c))

structure DepositIntent where
  amount : ℚ
  goalId : String
  goalTitle : String
deriving DecidableEq

def detectSavingsDepositIntent (message : String) (goals : List SavingsGoal) :
    Option DepositIntent :=
  let normalized := normalize message
  let depositKeywords := ["eingezahlt", "einbezahlt", "einzahlung",
    "zurueckgelegt", "gespart"]
  let hasDepositKeyword := depositKeywords.any (fun kw => strIncludes normalized kw)
  match firstAmountMatch message with
  | none => none
  | some tok =>
      if !hasDepositKeyword then none else
      match parseFloatQ (replaceCommaDot tok) with
      | none => none
      | some amount =>
          if amount ≤ 0 then none else
          match matchGoalByName normalized goals with
          | none => none
          | some matchedGoal => some ⟨amount, matchedGoal.id, matchedGoal.title⟩

/-- The suffix of `cs` just after the first case-insensitive occurrence of
`pat` (which is given in lower case). -/
def suffixAfterCI (pat : String) : List Char → Option (List Char)
  | [] => none
  | l@(_ :: t) =>
      if listStartsWith (l.map jsLower) pat.data then some (l.drop pat.data.length)
      else suffixAfterCI pat t

/-- Model of `message.match(/regel[^:]*[:\-]\s*["“]?(.+?)["”]?$/i)`, group 1:
after the first case-insensitive `regel`, the greedy `[^:]*` makes the
separator the first `:` of the suffix if one exists, otherwise the last `-`;
then whitespace and one optional opening quote are skipped, and the lazy
group takes the rest of the line minus one optional closing quote. -/
def extractRuleColon (message : String) : Option String :=
  match suffixAfterCI "regel" message.data with
  | none => none
  | some suffix =>
      let sepIdx : Option Nat :=
        match suffix.findIdx? (fun c => decide (c = ':')) with
        | some i => some i
        | none => lastIdxOf '-' suffix
      match sepIdx with
      | none => none
      | some i =>
          let rest := (suffix.drop (i + 1)).dropWhile Char.isWhitespace
          let rest2 :=
            match rest with
            | c :: r => if c = '"' ∨ c = '“' then r else rest
            | [] => []
          match rest2 with
          | [] => none
          | _ :: _ =>
              let grp :=
                match rest2.getLast? with
                | some c =>
                    if (c = '"' ∨ c = '”') ∧ 2 ≤ rest2.length then rest2.dropLast
                    else rest2
                | none => rest2
              some (String.mk grp)

/-- Model of `message.match(/"(.+?)"/)`, group 1: the first straight-quote
pair enclosing at least one character (the lazy dot may itself consume
quotes). -/
def firstQuotedAux : List Char → Option (List Char)
  | [] => none
  | c :: rest =>
      if c = '"' then
        match rest with
        | d :: r2 =>
            match r2.findIdx? (fun x => decide (x = '"')) with
            | some j => some (d :: r2.take j)
            | none => firstQuotedAux rest
        | [] => none
      else firstQuotedAux rest

def firstQuoted (s : String) : Option String :=
  (firstQuotedAux s.data).map String.mk

def extractRuleText (message : String) : Option String :=
  match extractRuleColon message with
  | some t => some t
  | none => firstQuoted message

structure RuleAddIntent where
  goalId : String
  ruleText : String
deriving DecidableEq

def detectGoalRuleAddIntent (message : String) (goals : List SavingsGoal) :
    Option RuleAddIntent :=
  let normalized := normalize message
  let keywords := ["regel hinzuf", "neue regel", "regel add", "regel dazu"]
  if !keywords.any (fun kw => strIncludes normalized kw) then none else
  let ruleText :=
    match extractRuleText message with
    | some t => jsTrim t
    | none => ""
  if ruleText = "" then none else
  match (matchGoalByName normalized goals).orElse (fun _ => goals.head?) with
  | none => none
  | some matchedGoal => some ⟨matchedGoal.id, ruleText⟩

structure RuleRemoveIntent where
  goalId : String
  ruleIndex : Option Int
  ruleText : Option String
deriving DecidableEq

/-- Model of `message.match(/regel\s*(\d+)/i)`: the digits after the first
case-insensitive `regel` that is followed by optional whitespace and at
least one digit. -/
def ruleIndexScan : List Char → Option Nat
  | [] => none
  | l@(_ :: t) =>
      if listStartsWith (l.map jsLower) "regel".data then
        let after := (l.drop 5).dropWhile Char.isWhitespace
        let ds := after.takeWhile Char.isDigit
        if ds.isEmpty then ruleIndexScan t else some (digitsToNat ds)
      else ruleIndexScan t

def detectGoalRuleRemoveIntent (message : String) (goals : List SavingsGoal) :
    Option RuleRemoveIntent :=
  let normalized := normalize message
  let keywords := ["regel loesch", "regel entfern", "regel streich"]
  if !keywords.any (fun kw => strIncludes normalized kw) then none else
  match (matchGoalByName normalized goals).orElse (fun _ => goals.head?) with
  | none => none
  | some matchedGoal =>
      match ruleIndexScan message.data with
      | some n => some ⟨matchedGoal.id, some ((n : Int) - 1), none⟩
      | none =>
          let ruleText :=
            match extractRuleText message with
            | some t => jsTrim t
            | none => ""
          some ⟨matchedGoal.id, none, if ruleText = "" then none else some ruleText⟩

structure GoalRefIntent where
  goalId : String
  goalTitle : String
deriving DecidableEq

def detectGoalDeletionIntent (message : String) (goals : List SavingsGoal) :
    Option GoalRefIntent :=
  let normalized := normalize message
  let keywords := ["loesch", "delete", "entfern", "weg"]
  if !keywords.any (fun kw => strIncludes normalized kw) then none else
  match (matchGoalByName normalized goals).orElse (fun _ => goals.head?) with
  | none => none
  | some matchedGoal => some ⟨matchedGoal.id, matchedGoal.title⟩

def detectGoalCompleteIntent (message : String) (goals : List SavingsGoal) :
    Option GoalRefIntent :=
  let normalized := normalize message
  let keywords := ["fertig", "erreicht", "abgeschlossen", "erfuellt", "erledigt"]
  if !keywords.any (fun kw => strIncludes normalized kw) then none else
  match (matchGoalByName normalized goals).orElse (fun _ => goals.head?) with
  | none => none
  | some matchedGoal => some ⟨matchedGoal.id, matchedGoal.title⟩

structure GoalIdIntent where
  goalId : String
deriving DecidableEq

def detectGoalUpdateIntent (message : String) (goals : List SavingsGoal) :
    Option GoalIdIntent :=
  let normalized := normalize message
  let keywords := ["update", "updatee", "anpassen", "pass an", "passe", "ändere",
    "aendere", "ändern", "aendern", "bearbeiten", "edit", "adjust", "adjustiere",
    "change", "modify", "revise", "rename", "updaten", "aktualisier",
    "aktualisieren", "editieren", "rewrite", "rework", "überarbeiten",
    "ueberarbeiten", "überarbeite", "ueberarbeite", "änderung", "aenderung",
    "ziel anpassen", "goal update", "goal adjust", "goal change"]
  if !keywords.any (fun kw => strIncludes normalized kw) then none else
  match (matchGoalByName normalized goals).orElse (fun _ => goals.head?) with
  | none => none
  | some matchedGoal => some ⟨matchedGoal.id⟩

/-! ### Savings-goal rule synthesis -/

/-- `calculateMonthlyRate`: whole months remaining (at least 1), counting
the current partial month when the target's day-of-month is not smaller than
today's; NaN (`none`) for an unparseable target date. -/
def calculateMonthlyRate (today : YMD) (targetAmount : ℚ) (targetDate : String) :
    JsNum :=
  match parseDateParts targetDate with
  | none => none
  | some target =>
      let months : ℚ :=
        max 1 (((target.year - today.year) * 12 + (target.month - today.month) +
          (if today.day ≤ target.day then 1 else 0) : Int) : ℚ)
      some (max 0 (targetAmount / months))

def monthlyRuleDe (monthly : JsNum) : String :=
  "Jeden Monat " ++ jsToFixed2 monthly ++ " CHF aufs Sparkonto überweisen"

def monthlyRuleEn (monthly : JsNum) : String :=
  "Transfer " ++ jsToFixed2 monthly ++ " CHF to savings each month"

/-- The output of the `savingsGoalAgent` LLM extraction (treated as an
oracle input; only its deterministic post-processing is modelled). -/
structure SavingsGoalOutput where
  goalTitle : String
  targetAmount : ℚ
  targetDate : String
  rules : List String
deriving DecidableEq

inductive Lang where
  | de
  | en
deriving DecidableEq

structure BilingualRules where
  goalTitle : String
  rules : List String
  rulesEn : Option (List String)
deriving DecidableEq

/-- `buildBilingualRules`: deterministic monthly rule prepended to the
model-proposed rules (with duplicate monthly-transfer rules stripped);
translation capabilities are oracles, `none` meaning the call threw (the
code catches it). -/
def buildBilingualRules (today : YMD) (lang : Lang)
    (translateBatch : List String → Option (List String))
    (translateAll : List String → Option (List String))
    (goalOutput : SavingsGoalOutput) (existing : Option SavingsGoal) :
    BilingualRules :=
  let targetAmount :=
    if goalOutput.targetAmount ≠ 0 then goalOutput.targetAmount
    else
      match existing with
      | some e => if e.targetAmount ≠ 0 then e.targetAmount else 0
      | none => 0
  let targetDate :=
    if goalOutput.targetDate ≠ "" then goalOutput.targetDate
    else
      match existing with
      | some e => if e.targetDate ≠ "" then e.targetDate else ymdToISO today
      | none => ymdToISO today
  let monthly := calculateMonthlyRate today targetAmount targetDate
  let baseRules := goalOutput.rules.filter
    (fun r => !(strIncludes (jsStrLower r) "aufs sparkonto"))
  let rules := monthlyRuleDe monthly :: baseRules
  let titleRulesEn : String × Option (List String) :=
    if lang = .en then
      match translateBatch (goalOutput.goalTitle :: baseRules) with
      | some translated =>
          if translated.length = baseRules.length + 1 then
            (translated.headD goalOutput.goalTitle,
              some (monthlyRuleEn monthly :: translated.tail))
          else (goalOutput.goalTitle, none)
      | none => (goalOutput.goalTitle, none)
    else (goalOutput.goalTitle, none)
  let rulesEn :=
    match titleRulesEn.2 with
    | some r => some r
    | none => translateAll rules
  { goalTitle := titleRulesEn.1, rules := rules, rulesEn := rulesEn }

/-! ### Persistence model and the chat route's goal-mutation branches -/

def updateSavingsGoalAmount (store : List SavingsGoal) (goalId : String)
    (newAmount : ℚ) : List SavingsGoal :=
  store.map (fun g =>
    if g.id = goalId then { g with currentSavedAmount := newAmount } else g)

def updateSavingsGoalRules (store : List SavingsGoal) (goalId : String)
    (rules : List String) (rulesEn : Option (List String)) : List SavingsGoal :=
  store.map (fun g =>
    if g.id = goalId then { g with rules := rules, rulesEn := rulesEn } else g)

def markSavingsGoalComplete (store : List SavingsGoal) (goalId : String) :
    List SavingsGoal :=
  store.map (fun g =>
    if g.id = goalId then { g with currentSavedAmount := g.targetAmount } else g)

def deleteSavingsGoalStore (store : List SavingsGoal) (goalId : String) :
    List SavingsGoal :=
  store.filter (fun g => decide (g.id ≠ goalId))

def updateSavingsGoalFields (store : List SavingsGoal) (goalId : String)
    (title : String) (targetAmount : ℚ) (targetDate : String)
    (rules : List String) (rulesEn : Option (List String)) : List SavingsGoal :=
  store.map (fun g =>
    if g.id = goalId then
      { g with
        title := title
        targetAmount := targetAmount
        targetDate := targetDate
        rules := rules
        rulesEn := rulesEn }
    else g)

/-- The deposit branch of the chat route: `newAmount = max(0, current +
amount)` stored for the targeted goal. -/
def depositStep (store : List SavingsGoal) (i : DepositIntent) : List SavingsGoal :=
  match store.find? (fun g => decide (g.id = i.goalId)) with
  | none => store
  | some targetGoal =>
      updateSavingsGoalAmount store targetGoal.id
        (max 0 (targetGoal.currentSavedAmount + i.amount))

/-- The rule-add branch: append to the goal's rules (and best-effort to the
translated list; `translateOne = none` models a caught translation error). -/
def ruleAddStep (translateOne : String → Option String)
    (store : List SavingsGoal) (i : RuleAddIntent) : List SavingsGoal :=
  match store.find? (fun g => decide (g.id = i.goalId)) with
  | none => store
  | some targetGoal =>
      let newRules := targetGoal.rules ++ [i.ruleText]
      let rulesEn :=
        match translateOne i.ruleText with
        | some translated =>
            some ((targetGoal.rulesEn.getD (targetGoal.rules.map (fun r => r)))
              ++ [translated])
        | none => targetGoal.rulesEn
      updateSavingsGoalRules store targetGoal.id newRules rulesEn

def removeIdx {α : Type} (l : List α) (i : Nat) : List α :=
  (l.enum.filter (fun p => decide (p.1 ≠ i))).map (fun p => p.2)

/-- The new rule lists computed by the rule-remove branch: by 1-based index
when the index denotes a truthy entry, else by case-insensitive substring.
(The parallel English list is filtered by the German rule at the same
index, as in the code.) -/
def ruleRemoveApply (rules : List String) (rulesEn : Option (List String))
    (i : RuleRemoveIntent) : List String × Option (List String) :=
  let byText : List String × Option (List String) :=
    match i.ruleText with
    | some rt =>
        let ruleText := jsStrLower rt
        ((rules.filter (fun r => !(strIncludes (jsStrLower r) ruleText))),
          match rulesEn with
          | some re => some ((re.enum.filter (fun p =>
              !(strIncludes (jsStrLower (rules.getD p.1 "")) ruleText))).map
              (fun p => p.2))
          | none => none)
    | none => (rules, rulesEn)
  match i.ruleIndex with
  | some idx =>
      if 0 ≤ idx ∧ idx < (rules.length : Int) ∧ rules.getD idx.toNat "" ≠ "" then
        (removeIdx rules idx.toNat,
          match rulesEn with
          | some re => some (removeIdx re idx.toNat)
          | none => none)
      else byText
  | none => byText

def ruleRemoveStep (store : List SavingsGoal) (i : RuleRemoveIntent) :
    List SavingsGoal :=
  match store.find? (fun g => decide (g.id = i.goalId)) with
  | none => store
  | some targetGoal =>
      let pair := ruleRemoveApply targetGoal.rules targetGoal.rulesEn i
      updateSavingsGoalRules store targetGoal.id pair.1 pair.2

def completeStep (store : List SavingsGoal) (i : GoalRefIntent) : List SavingsGoal :=
  markSavingsGoalComplete store i.goalId

def deleteStep (store : List SavingsGoal) (i : GoalRefIntent) : List SavingsGoal :=
  deleteSavingsGoalStore store i.goalId

/-- The full-update branch: rebuild title and rules with
`buildBilingualRules` against the existing goal, then store the agent's
target amount and date with the rebuilt rules. -/
def updateStep (today : YMD) (lang : Lang)
    (translateBatch translateAll : List String → Option (List String))
    (store : List SavingsGoal) (i : GoalIdIntent)
    (goalOutput : SavingsGoalOutput) : List SavingsGoal :=
  match store.find? (fun g => decide (g.id = i.goalId)) with
  | none => store
  | some targetGoal =>
      let br := buildBilingualRules today lang translateBatch translateAll
        goalOutput (some targetGoal)
      updateSavingsGoalFields store targetGoal.id br.goalTitle
        goalOutput.targetAmount goalOutput.targetDate br.rules br.rulesEn

/-- The create-goal branch: a fresh goal with saved amount 0 and the
synthesized rules (the store lists newest goals first). -/
def createGoalStep (today : YMD) (lang : Lang)
    (translateBatch translateAll : List String → Option (List String))
    (store : List SavingsGoal) (newId userId : String)
    (goalOutput : SavingsGoalOutput) : List SavingsGoal :=
  let br := buildBilingualRules today lang translateBatch translateAll goalOutput none
  { id := newId, userId := userId, title := br.goalTitle,
    targetAmount := goalOutput.targetAmount, targetDate := goalOutput.targetDate,
    currentSavedAmount := 0, rules := br.rules, rulesEn := br.rulesEn } :: store

inductive RouteIntent where
  | deposit (i : DepositIntent)
  | ruleAdd (i : RuleAddIntent)
  | ruleRemove (i : RuleRemoveIntent)
  | deleteGoal (i : GoalRefIntent)
  | complete (i : GoalRefIntent)
  | update (i : GoalIdIntent)
  | createGoal
  | general
deriving DecidableEq

/-- The chat route's dispatch order (first matching detector wins). -/
def route (message : String) (goals : List SavingsGoal) : RouteIntent :=
  match detectSavingsDepositIntent message goals with
  | some i => .deposit i
  | none =>
  match detectGoalRuleAddIntent message goals with
  | some i => .ruleAdd i
  | none =>
  match detectGoalRuleRemoveIntent message goals with
  | some i => .ruleRemove i
  | none =>
  match detectGoalDeletionIntent message goals with
  | some i => .deleteGoal i
  | none =>
  match detectGoalCompleteIntent message goals with
  | some i => .complete i
  | none =>
  match detectGoalUpdateIntent message goals with
  | some i => .update i
  | none =>
  if detectSavingsGoalIntent message then .createGoal else .general

/-! ## Derived predicates used by the claims -/

set_option maxRecDepth 100000

/-- The canonical-first-rule invariant of a savings goal relative to a
reference day: `rules[0]` is the monthly-transfer rule whose amount is the
goal's target amount divided by the clamped months remaining. -/
def canonicalFirstRule (today : YMD) (g : SavingsGoal) : Prop :=
  g.rules.head? =
    some (monthlyRuleDe (calculateMonthlyRate today g.targetAmount g.targetDate))

/-! ## Claims -/

/-- C1 (counterexample): with today = 2026-10-11 and target date 2027-10-11 —
exactly 12 whole calendar months later — and target amount 1200, the
synthesized first rule carries 92.31, and the computed contribution is
1200/13, not 100. -/
theorem C1_counterexample :
    (buildBilingualRules ⟨2026, 10, 11⟩ .de (fun _ => none) (fun _ => none)
        ⟨"Thailand", 1200, "2027-10-11", []⟩ none).rules.head? =
      some "Jeden Monat 92.31 CHF aufs Sparkonto überweisen" ∧
    calculateMonthlyRate ⟨2026, 10, 11⟩ 1200 "2027-10-11" = some (1200 / 13) ∧
    (1200 / 13 : ℚ) ≠ 100 :=
  ⟨by with_unfolding_all rfl, by with_unfolding_all rfl, by norm_num⟩

/-- C1 (amended): for target amount 1200 and a target date exactly 12 whole
calendar months from today (same day-of-month, one year later), the month
count is 13 — the 12-month difference plus the current partial month, which
is counted because the target's day-of-month is not smaller than today's —
so the monthly contribution is 1200/13, printed as 92.31 by the documented
2-decimal rounding (it would be 100.00 only for a target day-of-month
strictly smaller than today's). -/
theorem C1_theorem (y m d : Int) (targetDate : String)
    (hparse : parseDateParts targetDate = some ⟨y + 1, m, d⟩) :
    calculateMonthlyRate ⟨y, m, d⟩ 1200 targetDate = some (1200 / 13) ∧
    jsToFixed2 (calculateMonthlyRate ⟨y, m, d⟩ 1200 targetDate) = "92.31" := by
  have h13 : (((⟨y + 1, m, d⟩ : YMD).year - (⟨y, m, d⟩ : YMD).year) * 12 +
      ((⟨y + 1, m, d⟩ : YMD).month - (⟨y, m, d⟩ : YMD).month) +
      (if (⟨y, m, d⟩ : YMD).day ≤ (⟨y + 1, m, d⟩ : YMD).day then 1 else 0) : Int)
      = 13 := by
    show ((y + 1 - y) * 12 + (m - m) + (if d ≤ d then 1 else 0) : Int) = 13
    simp
  have hrate : calculateMonthlyRate ⟨y, m, d⟩ 1200 targetDate = some (1200 / 13) := by
    unfold calculateMonthlyRate
    simp only [hparse]
    rw [h13]
    with_unfolding_all rfl
  refine ⟨hrate, ?_⟩
  rw [hrate]
  with_unfolding_all rfl

/-- C1 (witness): the amended statement at today = 2026-10-11, target
2027-10-11. -/
theorem C1_witness :
    parseDateParts "2027-10-11" = some ⟨2026 + 1, 10, 11⟩ ∧
    (calculateMonthlyRate ⟨2026, 10, 11⟩ 1200 "2027-10-11" = some (1200 / 13) ∧
      jsToFixed2 (calculateMonthlyRate ⟨2026, 10, 11⟩ 1200 "2027-10-11") = "92.31") :=
  ⟨by with_unfolding_all rfl,
    C1_theorem 2026 10 11 "2027-10-11" (by with_unfolding_all rfl)⟩

/-- The transaction used to exercise the classification fallback. -/
def c7Txn : RawTransaction :=
  { id := "t1", userId := "u1", date := "2026-10-01", merchant := "Zalando",
    amount := 100, rawCategory := none, justification := none }

/-- C7 (counterexample): a completion response with no JSON object at all
does not produce the documented defaults — for merchant Zalando at 100 the
result is the keyword fallback: category Shopping, isImpulse true,
decisionLabel unnecessary. -/
theorem C7_counterexample :
    jsonMatchFirst "keine strukturierte Antwort" = none ∧
    (impulseClassificationAgent (fun _ => none)
      (some "keine strukturierte Antwort") c7Txn).category = JsValue.jstr "Shopping" ∧
    (impulseClassificationAgent (fun _ => none)
      (some "keine strukturierte Antwort") c7Txn).isImpulse = true ∧
    (impulseClassificationAgent (fun _ => none)
      (some "keine strukturierte Antwort") c7Txn).decisionLabel =
      DecisionLabel.unnecessary :=
  ⟨by with_unfolding_all rfl, by with_unfolding_all rfl,
    by with_unfolding_all rfl, by with_unfolding_all rfl⟩

/-- C7 (amended): when a JSON object is found and parses but the required
fields are missing, the documented defaults apply (category "Allgemeines"
(general/other), isImpulse false, decisionLabel "useful"); when no JSON
object can be found, when `JSON.parse` throws, or when the completion call
itself throws, the agent instead returns the deterministic keyword fallback
classification of the transaction. -/
theorem C7_theorem (parse : String → Option JsValue) (t : RawTransaction) :
    (∀ resp s v, jsonMatchFirst resp = some s → parse s = some v →
      getField v "category" = none → getField v "isImpulse" = none →
      getField v "decisionLabel" = none →
      (impulseClassificationAgent parse (some resp) t).category =
          JsValue.jstr "Allgemeines" ∧
        (impulseClassificationAgent parse (some resp) t).isImpulse = false ∧
        (impulseClassificationAgent parse (some resp) t).decisionLabel =
          DecisionLabel.useful) ∧
    (∀ resp, jsonMatchFirst resp = none →
      impulseClassificationAgent parse (some resp) t = fallbackClassification t) ∧
    (∀ resp s, jsonMatchFirst resp = some s → parse s = none →
      impulseClassificationAgent parse (some resp) t = fallbackClassification t) ∧
    impulseClassificationAgent parse none t = fallbackClassification t := by
  refine ⟨?_, ?_, ?_, rfl⟩
  · intro resp s v h1 h2 h3 h4 h5
    simp only [impulseClassificationAgent, h1, h2, h3, h4, h5, jsOr, truthy, isStrEq]
    exact ⟨trivial, trivial, rfl⟩
  · intro resp h1
    simp only [impulseClassificationAgent, h1]
  · intro resp s h1 h2
    simp only [impulseClassificationAgent, h1, h2]

/-- C7 (witness): the amended statement exercised on concrete inputs — an
empty JSON object yields the defaults, and a brace-free response, a parse
failure, and a thrown completion call each yield the fallback. -/
theorem C7_witness :
    jsonMatchFirst "\x7b\x7d" = some "\x7b\x7d" ∧
    ((impulseClassificationAgent (fun _ => some (JsValue.jobj []))
        (some "\x7b\x7d") c7Txn).category = JsValue.jstr "Allgemeines" ∧
      (impulseClassificationAgent (fun _ => some (JsValue.jobj []))
        (some "\x7b\x7d") c7Txn).isImpulse = false ∧
      (impulseClassificationAgent (fun _ => some (JsValue.jobj []))
        (some "\x7b\x7d") c7Txn).decisionLabel = DecisionLabel.useful) ∧
    impulseClassificationAgent (fun _ => some (JsValue.jobj []))
      (some "hallo") c7Txn = fallbackClassification c7Txn ∧
    impulseClassificationAgent (fun _ => none) (some "\x7b\x7d") c7Txn =
      fallbackClassification c7Txn ∧
    impulseClassificationAgent (fun _ => some (JsValue.jobj [])) none c7Txn =
      fallbackClassification c7Txn := by
  have jm : jsonMatchFirst "\x7b\x7d" = some "\x7b\x7d" := by with_unfolding_all rfl
  refine ⟨jm, ?_, ?_, ?_, ?_⟩
  · exact (C7_theorem (fun _ => some (JsValue.jobj [])) c7Txn).1 "\x7b\x7d"
      "\x7b\x7d" (JsValue.jobj []) jm rfl rfl rfl rfl
  · exact (C7_theorem (fun _ => some (JsValue.jobj [])) c7Txn).2.1 "hallo"
      (by with_unfolding_all rfl)
  · exact (C7_theorem (fun _ => none) c7Txn).2.2.1 "\x7b\x7d" "\x7b\x7d" jm rfl
  · exact (C7_theorem (fun _ => some (JsValue.jobj [])) c7Txn).2.2.2

/-- The "Thailand trip" goal with a given saved amount. -/
def c9GoalAt (c : ℚ) : SavingsGoal :=
  { id := "g1", userId := "demoUser", title := "Thailand trip",
    targetAmount := 3000, targetDate := "2027-06-01", currentSavedAmount := c,
    rules := ["Jeden Monat 375.00 CHF aufs Sparkonto überweisen"],
    rulesEn := none }

/-- C9 (counterexample): the English utterance "I saved 200 at Thailand
trip" is not recognized as a deposit (the deposit keywords are German-only);
it trips the create-goal detector instead, so the router takes goal
creation, not a deposit on the existing goal. -/
theorem C9_counterexample :
    detectSavingsDepositIntent "I saved 200 at Thailand trip" [c9GoalAt 150] =
      none ∧
    detectSavingsGoalIntent "I saved 200 at Thailand trip" = true ∧
    route "I saved 200 at Thailand trip" [c9GoalAt 150] = RouteIntent.createGoal :=
  ⟨by with_unfolding_all rfl, by with_unfolding_all rfl, by with_unfolding_all rfl⟩

/-- C9 (amended): the equivalent German utterance "Ich habe 200 bei Thailand
trip gespart" is routed to the deposit intent on the "Thailand trip" goal,
and the deposit branch raises that goal's (non-negative) saved amount by
exactly 200, the returned goal list carrying the new total. -/
theorem C9_theorem (c : ℚ) (hc : 0 ≤ c) :
    route "Ich habe 200 bei Thailand trip gespart" [c9GoalAt c] =
      RouteIntent.deposit ⟨200, "g1", "Thailand trip"⟩ ∧
    depositStep [c9GoalAt c] ⟨200, "g1", "Thailand trip"⟩ = [c9GoalAt (c + 200)] := by
  constructor
  · with_unfolding_all rfl
  · have h1 : depositStep [c9GoalAt c] ⟨200, "g1", "Thailand trip"⟩ =
        [c9GoalAt (max 0 (c + 200))] := by with_unfolding_all rfl
    rw [h1, max_eq_right (by linarith : (0 : ℚ) ≤ c + 200)]

/-- C9 (witness): the amended statement at saved amount 150, giving the new
total 350. -/
theorem C9_witness :
    (0 : ℚ) ≤ 150 ∧
    route "Ich habe 200 bei Thailand trip gespart" [c9GoalAt 150] =
      RouteIntent.deposit ⟨200, "g1", "Thailand trip"⟩ ∧
    depositStep [c9GoalAt 150] ⟨200, "g1", "Thailand trip"⟩ =
      [c9GoalAt (150 + 200)] :=
  ⟨by norm_num, (C9_theorem 150 (by norm_num)).1, (C9_theorem 150 (by norm_num)).2⟩

/-- C4: months-in-scope arithmetic: 'month' mode gives exactly 1; 'year'
mode gives the numeric month component of the reference month string clamped
below at 1 (so not always 12); 'custom' mode gives the inclusive
month-difference between start and end plus 1, clamped below at 1. -/
theorem C4_theorem :
    (∀ (month : String) (sd ed : Option String),
      calculateMonthsInScope .month month sd ed = some 1) ∧
    (∀ (month : String) (sd ed : Option String) (q : ℚ),
      jsNumberOpt ((splitDash month).get? 1) = some q →
      calculateMonthsInScope .year month sd ed = some (max 1 q)) ∧
    (∀ (month sd ed : String) (sy sm ey em : ℚ), sd ≠ "" → ed ≠ "" →
      jsNumberOpt ((splitDash sd).get? 0) = some sy →
      jsNumberOpt ((splitDash sd).get? 1) = some sm →
      jsNumberOpt ((splitDash ed).get? 0) = some ey →
      jsNumberOpt ((splitDash ed).get? 1) = some em →
      calculateMonthsInScope .custom month (some sd) (some ed) =
        some (max 1 ((ey - sy) * 12 + (em - sm) + 1))) := by
  refine ⟨?_, ?_, ?_⟩
  · intro month sd ed
    simp [calculateMonthsInScope]
  · intro month sd ed q hq
    simp only [List.get?_eq_getElem?] at hq
    simp [calculateMonthsInScope, hq, jmax, jbin]
  · intro month sd ed sy sm ey em hsd hed h1 h2 h3 h4
    simp only [List.get?_eq_getElem?] at h1 h2 h3 h4
    simp [calculateMonthsInScope, truthyStr, hsd, hed, h1, h2, h3, h4,
      jmax, jadd, jmul, jsub, jbin]

/-- C4 (witness): the three modes at concrete inputs — April-in-year gives
months = 4, March-to-July custom gives 5, month mode gives 1. -/
theorem C4_witness :
    calculateMonthsInScope .month "2026-05" none none = some 1 ∧
    (jsNumberOpt ((splitDash "2026-04").get? 1) = some 4 ∧
      calculateMonthsInScope .year "2026-04" none none = some (max 1 4)) ∧
    (jsNumberOpt ((splitDash "2026-03-15").get? 0) = some 2026 ∧
      jsNumberOpt ((splitDash "2026-03-15").get? 1) = some 3 ∧
      jsNumberOpt ((splitDash "2026-07-02").get? 0) = some 2026 ∧
      jsNumberOpt ((splitDash "2026-07-02").get? 1) = some 7 ∧
      calculateMonthsInScope .custom "2026-01" (some "2026-03-15")
        (some "2026-07-02") = some (max 1 ((2026 - 2026) * 12 + (7 - 3) + 1))) := by
  have p1 : jsNumberOpt ((splitDash "2026-04").get? 1) = some 4 := by
    with_unfolding_all rfl
  have q1 : jsNumberOpt ((splitDash "2026-03-15").get? 0) = some 2026 := by
    with_unfolding_all rfl
  have q2 : jsNumberOpt ((splitDash "2026-03-15").get? 1) = some 3 := by
    with_unfolding_all rfl
  have q3 : jsNumberOpt ((splitDash "2026-07-02").get? 0) = some 2026 := by
    with_unfolding_all rfl
  have q4 : jsNumberOpt ((splitDash "2026-07-02").get? 1) = some 7 := by
    with_unfolding_all rfl
  exact ⟨C4_theorem.1 "2026-05" none none,
    ⟨p1, C4_theorem.2.1 "2026-04" none none 4 p1⟩,
    ⟨q1, q2, q3, q4, C4_theorem.2.2 "2026-01" "2026-03-15" "2026-07-02"
      2026 3 2026 7 (by decide) (by decide) q1 q2 q3 q4⟩⟩

/-- C10: a recognized deposit intent always carries a strictly positive
amount, and the deposit branch stores `max(0, previous + amount)` for the
targeted goal — which never decreases the saved amount and never leaves it
negative. -/
theorem C10_theorem (message : String) (goals store : List SavingsGoal)
    (i : DepositIntent)
    (hdet : detectSavingsDepositIntent message goals = some i) :
    0 < i.amount ∧
    ∀ g, store.find? (fun g0 => decide (g0.id = i.goalId)) = some g →
      depositStep store i =
        updateSavingsGoalAmount store i.goalId
          (max 0 (g.currentSavedAmount + i.amount)) ∧
      g.currentSavedAmount ≤ max 0 (g.currentSavedAmount + i.amount) ∧
      0 ≤ max 0 (g.currentSavedAmount + i.amount) := by
  have hpos : 0 < i.amount := by
    simp only [detectSavingsDepositIntent] at hdet
    rcases hfa : firstAmountMatch message with _ | tok <;> simp only [hfa] at hdet
    · exact Option.noConfusion hdet
    · cases hkw : (!(["eingezahlt", "einbezahlt", "einzahlung", "zurueckgelegt",
          "gespart"].any (fun kw => strIncludes (normalize message) kw))) <;>
        simp only [hkw] at hdet
      · rw [if_neg (by simp)] at hdet
        rcases hpf : parseFloatQ (replaceCommaDot tok) with _ | amount <;>
          simp only [hpf] at hdet
        · exact Option.noConfusion hdet
        · by_cases hle : amount ≤ 0
          · rw [if_pos hle] at hdet
            exact Option.noConfusion hdet
          · rw [if_neg hle] at hdet
            rcases hmg : matchGoalByName (normalize message) goals with _ | mg <;>
              simp only [hmg] at hdet
            · exact Option.noConfusion hdet
            · cases hdet
              exact lt_of_not_le hle
      · rw [if_pos trivial] at hdet
        exact Option.noConfusion hdet
  refine ⟨hpos, ?_⟩
  intro g hg
  have hid : g.id = i.goalId := by
    have hb := List.find?_some hg
    simpa using hb
  refine ⟨?_, ?_, le_max_left 0 _⟩
  · simp only [depositStep, hg]
    rw [hid]
  · rcases le_total g.currentSavedAmount 0 with h | h
    · exact le_trans h (le_max_left _ _)
    · exact le_trans (by linarith) (le_max_right _ _)

/-- The goal used in the deposit witnesses. -/
def c10Goal : SavingsGoal :=
  { id := "a1", userId := "u1", title := "Auto", targetAmount := 12000,
    targetDate := "2028-01-01", currentSavedAmount := 150,
    rules := ["Jeden Monat 750.00 CHF aufs Sparkonto überweisen"],
    rulesEn := none }

/-- C10 (witness): the deposit utterance "Ich habe 200 bei Auto gespart" is
recognized with amount 200 > 0, and the stored amount for the goal at 150
becomes `max 0 (150 + 200)`. -/
theorem C10_witness :
    detectSavingsDepositIntent "Ich habe 200 bei Auto gespart" [c10Goal] =
      some ⟨200, "a1", "Auto"⟩ ∧
    (0 : ℚ) < (200 : ℚ) ∧
    depositStep [c10Goal] ⟨200, "a1", "Auto"⟩ =
      updateSavingsGoalAmount [c10Goal] "a1"
        (max 0 (c10Goal.currentSavedAmount + 200)) ∧
    c10Goal.currentSavedAmount ≤ max 0 (c10Goal.currentSavedAmount + 200) ∧
    0 ≤ max 0 (c10Goal.currentSavedAmount + 200) := by
  have hdet : detectSavingsDepositIntent "Ich habe 200 bei Auto gespart"
      [c10Goal] = some ⟨200, "a1", "Auto"⟩ := by with_unfolding_all rfl
  have hfind : [c10Goal].find?
      (fun g0 => decide (g0.id = (⟨200, "a1", "Auto"⟩ : DepositIntent).goalId)) =
      some c10Goal := by with_unfolding_all rfl
  have h := C10_theorem "Ich habe 200 bei Auto gespart" [c10Goal] [c10Goal]
    ⟨200, "a1", "Auto"⟩ hdet
  exact ⟨hdet, h.1, (h.2 c10Goal hfind).1, (h.2 c10Goal hfind).2.1,
    (h.2 c10Goal hfind).2.2⟩

/-- Scoped transactions come from the full history. -/
theorem mem_filterTransactionsByScope {ts : List Transaction} {month : String}
    {tf : Timeframe} {sd ed : Option String} (t : Transaction)
    (h : t ∈ filterTransactionsByScope ts month tf sd ed) : t ∈ ts := by
  unfold filterTransactionsByScope at h
  split at h
  · exact (List.mem_filter.mp h).1
  · split at h
    · exact (List.mem_filter.mp h).1
    · exact (List.mem_filter.mp h).1

/-- With no salary-tagged transaction in the whole history, the inferred
monthly salary is 0. -/
theorem inferMonthlySalary_eq_zero {ts : List Transaction} {ref : String}
    (h : ∀ t ∈ ts, isSalaryTransaction t = false) :
    inferMonthlySalaryFromHistory ts ref = 0 := by
  unfold inferMonthlySalaryFromHistory
  have hfil : ts.filter (fun t => isSalaryTransaction t) = [] := by
    rw [List.filter_eq_nil_iff]
    intro t ht
    simp [h t ht]
  rw [hfil]
  rfl

/-- C3: with mode auto and no salary-tagged transaction anywhere in the
history, the budget ceiling is exactly the declared baseline monthly income
× 0.6 × the months in scope. -/
theorem C3_theorem (now : ℚ) (input : BudgetPlannerInput)
    (hmode : input.budgetMode = .auto)
    (hnosal : ∀ t ∈ input.transactions, isSalaryTransaction t = false) :
    (budgetPlannerAgent now input).monthlyBudget =
      jmul (jmul (some input.monthlyNetIncome) (some (3 / 5)))
        (calculateMonthsInScope input.timeframe input.month input.startDate
          input.endDate) := by
  have hsal : (filterTransactionsByScope input.transactions input.month
      input.timeframe input.startDate input.endDate).filter
      (fun t => isSalaryTransaction t) = [] := by
    rw [List.filter_eq_nil_iff]
    intro t ht
    simp [hnosal t (mem_filterTransactionsByScope t ht)]
  have hinf1 : inferMonthlySalaryFromHistory input.transactions
      (strTake ((input.endDate).getD "") 7) = 0 := inferMonthlySalary_eq_zero hnosal
  have hinf2 : inferMonthlySalaryFromHistory input.transactions input.month = 0 :=
    inferMonthlySalary_eq_zero hnosal
  simp only [budgetPlannerAgent, hmode, hsal]
  have hne : BudgetMode.auto ≠ BudgetMode.manual := by decide
  simp [hne, hinf1, hinf2, inferMonthlySalary_eq_zero hnosal]

/-- The expense used in the C3 witness. -/
def c3Txn : Transaction :=
  { id := "t1"
    userId := "u1"
    date := "2026-10-03"
    merchant := "Migros"
    amount := 45
    rawCategory := none
    justification := none
    category := "Lebensmittel"
    isImpulse := false
    decisionLabel := .useful
    decisionExplanation := "Regulärer Kauf bei Migros." }

/-- The analysis request used in the C3 witness. -/
def c3Input : BudgetPlannerInput :=
  { monthlyNetIncome := 5000
    transactions := [c3Txn]
    month := "2026-10"
    timeframe := .month
    budgetMode := .auto
    startDate := none
    endDate := none }

/-- C3 (witness): a history with one non-salary expense, mode auto, income
5000, month scope: the ceiling is 5000 × 0.6 × the computed months in
scope. -/
theorem C3_witness :
    (budgetPlannerAgent 0 c3Input).monthlyBudget =
      jmul (jmul (some 5000) (some (3 / 5)))
        (calculateMonthsInScope .month "2026-10" none none) := by
  refine C3_theorem 0 c3Input rfl ?_
  intro t ht
  rw [show c3Input.transactions = [c3Txn] from rfl, List.mem_singleton] at ht
  subst ht
  with_unfolding_all rfl

/-- The spec's goal-disambiguation result: either the utterance contains an
existing goal title and the (first) matching goal is targeted, or no title
matches and the first goal of the list is the default target. -/
def claimTarget (message : String) (goals : List SavingsGoal) (gid : String) : Prop :=
  (∃ g, matchGoalByName (normalize message) goals = some g ∧ gid = g.id) ∨
  (matchGoalByName (normalize message) goals = none ∧
    ∃ g, goals.head? = some g ∧ gid = g.id)

theorem claimTarget_of_orElse {message : String} {goals : List SavingsGoal}
    {mg : SavingsGoal}
    (h : (matchGoalByName (normalize message) goals).orElse
      (fun _ => goals.head?) = some mg) :
    claimTarget message goals mg.id := by
  rcases hm : matchGoalByName (normalize message) goals with _ | g
  · rw [hm] at h
    simp only [Option.orElse] at h
    exact Or.inr ⟨hm, mg, h, rfl⟩
  · rw [hm] at h
    simp only [Option.orElse] at h
    have hgm := Option.some.inj h
    subst hgm
    exact Or.inl ⟨g, hm, rfl⟩

/-- C8: goal targeting for the chat-router detectors.  A recognized deposit
targets the (first) goal whose normalized title occurs in the normalized
utterance; each of the rule-add, rule-remove, delete, complete and update
detectors targets that matching goal, or defaults to the first goal of the
list when no title matches.  A `matchGoalByName` hit is a member of the
goal list whose normalized title is a substring of the normalized
utterance, and a miss means no goal title occurs. -/
theorem C8_theorem (message : String) (goals : List SavingsGoal) :
    (∀ i, detectSavingsDepositIntent message goals = some i →
      ∃ g, matchGoalByName (normalize message) goals = some g ∧ i.goalId = g.id) ∧
    (∀ i, detectGoalRuleAddIntent message goals = some i →
      claimTarget message goals i.goalId) ∧
    (∀ i, detectGoalRuleRemoveIntent message goals = some i →
      claimTarget message goals i.goalId) ∧
    (∀ i, detectGoalDeletionIntent message goals = some i →
      claimTarget message goals i.goalId) ∧
    (∀ i, detectGoalCompleteIntent message goals = some i →
      claimTarget message goals i.goalId) ∧
    (∀ i, detectGoalUpdateIntent message goals = some i →
      claimTarget message goals i.goalId) ∧
    (∀ g, matchGoalByName (normalize message) goals = some g →
      g ∈ goals ∧ strIncludes (normalize message) (normalize g.title) = true) ∧
    (matchGoalByName (normalize message) goals = none →
      ∀ g ∈ goals, strIncludes (normalize message) (normalize g.title) = false) := by
  refine ⟨?_, ?_, ?_, ?_, ?_, ?_, ?_, ?_⟩
  · -- deposit: only a title match can be targeted
    intro i hi
    simp only [detectSavingsDepositIntent] at hi
    rcases hfa : firstAmountMatch message with _ | tok <;> simp only [hfa] at hi
    · exact Option.noConfusion hi
    · cases hkw : (!(["eingezahlt", "einbezahlt", "einzahlung", "zurueckgelegt",
          "gespart"].any (fun kw => strIncludes (normalize message) kw))) <;>
        simp only [hkw] at hi
      · rw [if_neg (by simp)] at hi
        rcases hpf : parseFloatQ (replaceCommaDot tok) with _ | amount <;>
          simp only [hpf] at hi
        · exact Option.noConfusion hi
        · by_cases hle : amount ≤ 0
          · rw [if_pos hle] at hi
            exact Option.noConfusion hi
          · rw [if_neg hle] at hi
            rcases hmg : matchGoalByName (normalize message) goals with _ | mg <;>
              simp only [hmg] at hi
            · exact Option.noConfusion hi
            · cases hi
              exact ⟨mg, rfl, rfl⟩
      · rw [if_pos trivial] at hi
        exact Option.noConfusion hi
  · -- rule-add
    intro i hi
    simp only [detectGoalRuleAddIntent] at hi
    cases hkw : (!(["regel hinzuf", "neue regel", "regel add", "regel dazu"].any
        (fun kw => strIncludes (normalize message) kw))) <;> simp only [hkw] at hi
    · rw [if_neg (by simp)] at hi
      by_cases hrt : (match extractRuleText message with
          | some t => jsTrim t
          | none => "") = ""
      · rw [if_pos hrt] at hi
        exact Option.noConfusion hi
      · rw [if_neg hrt] at hi
        rcases ho : (matchGoalByName (normalize message) goals).orElse
            (fun _ => goals.head?) with _ | mg <;> simp only [ho] at hi
        · exact Option.noConfusion hi
        · cases hi
          exact claimTarget_of_orElse ho
    · rw [if_pos trivial] at hi
      exact Option.noConfusion hi
  · -- rule-remove
    intro i hi
    simp only [detectGoalRuleRemoveIntent] at hi
    cases hkw : (!(["regel loesch", "regel entfern", "regel streich"].any
        (fun kw => strIncludes (normalize message) kw))) <;> simp only [hkw] at hi
    · rw [if_neg (by simp)] at hi
      rcases ho : (matchGoalByName (normalize message) goals).orElse
          (fun _ => goals.head?) with _ | mg <;> simp only [ho] at hi
      · exact Option.noConfusion hi
      · rcases hscan : ruleIndexScan message.data with _ | n <;>
          simp only [hscan] at hi <;> cases hi <;> exact claimTarget_of_orElse ho
    · rw [if_pos trivial] at hi
      exact Option.noConfusion hi
  · -- delete
    intro i hi
    simp only [detectGoalDeletionIntent] at hi
    cases hkw : (!(["loesch", "delete", "entfern", "weg"].any
        (fun kw => strIncludes (normalize message) kw))) <;> simp only [hkw] at hi
    · rw [if_neg (by simp)] at hi
      rcases ho : (matchGoalByName (normalize message) goals).orElse
          (fun _ => goals.head?) with _ | mg <;> simp only [ho] at hi
      · exact Option.noConfusion hi
      · cases hi
        exact claimTarget_of_orElse ho
    · rw [if_pos trivial] at hi
      exact Option.noConfusion hi
  · -- complete
    intro i hi
    simp only [detectGoalCompleteIntent] at hi
    cases hkw : (!(["fertig", "erreicht", "abgeschlossen", "erfuellt",
        "erledigt"].any (fun kw => strIncludes (normalize message) kw))) <;>
      simp only [hkw] at hi
    · rw [if_neg (by simp)] at hi
      rcases ho : (matchGoalByName (normalize message) goals).orElse
          (fun _ => goals.head?) with _ | mg <;> simp only [ho] at hi
      · exact Option.noConfusion hi
      · cases hi
        exact claimTarget_of_orElse ho
    · rw [if_pos trivial] at hi
      exact Option.noConfusion hi
  · -- update
    intro i hi
    simp only [detectGoalUpdateIntent] at hi
    cases hkw : (!(["update", "updatee", "anpassen", "pass an", "passe", "ändere",
        "aendere", "ändern", "aendern", "bearbeiten", "edit", "adjust",
        "adjustiere", "change", "modify", "revise", "rename", "updaten",
        "aktualisier", "aktualisieren", "editieren", "rewrite", "rework",
        "überarbeiten", "ueberarbeiten", "überarbeite", "ueberarbeite",
        "änderung", "aenderung", "ziel anpassen", "goal update", "goal adjust",
        "goal change"].any (fun kw => strIncludes (normalize message) kw))) <;>
      simp only [hkw] at hi
    · rw [if_neg (by simp)] at hi
      rcases ho : (matchGoalByName (normalize message) goals).orElse
          (fun _ => goals.head?) with _ | mg <;> simp only [ho] at hi
      · exact Option.noConfusion hi
      · cases hi
        exact claimTarget_of_orElse ho
    · rw [if_pos trivial] at hi
      exact Option.noConfusion hi
  · -- a matchGoalByName hit is a member whose title occurs in the utterance
    intro g hg
    have h1 := List.find?_some hg
    have h2 := List.mem_of_find?_eq_some hg
    exact ⟨h2, h1⟩
  · -- a miss means no title occurs
    intro hnone g hg
    have := List.find?_eq_none.mp hnone g hg
    simpa using this

/-- C8 (witness): concrete utterances against the goal list ["Auto"]: the
deposit targets the title-matched goal; rule-add and rule-remove utterances
with no title mention default to the first goal; delete, complete and
update utterances naming "Auto" target it. -/
theorem C8_witness :
    (detectSavingsDepositIntent "Ich habe 200 bei Auto gespart" [c10Goal] =
        some ⟨200, "a1", "Auto"⟩ ∧
      ∃ g, matchGoalByName (normalize "Ich habe 200 bei Auto gespart") [c10Goal] =
        some g ∧ "a1" = g.id) ∧
    (detectGoalRuleAddIntent "Neue Regel: Kein Kaffee" [c10Goal] =
        some ⟨"a1", "Kein Kaffee"⟩ ∧
      claimTarget "Neue Regel: Kein Kaffee" [c10Goal] "a1") ∧
    (detectGoalRuleRemoveIntent "Regel loeschen: regel 1" [c10Goal] =
        some ⟨"a1", some 0, none⟩ ∧
      claimTarget "Regel loeschen: regel 1" [c10Goal] "a1") ∧
    (detectGoalDeletionIntent "Loesche Auto" [c10Goal] = some ⟨"a1", "Auto"⟩ ∧
      claimTarget "Loesche Auto" [c10Goal] "a1") ∧
    (detectGoalCompleteIntent "Auto ist erledigt" [c10Goal] =
        some ⟨"a1", "Auto"⟩ ∧
      claimTarget "Auto ist erledigt" [c10Goal] "a1") ∧
    (detectGoalUpdateIntent "Bitte passe Auto an" [c10Goal] = some ⟨"a1"⟩ ∧
      claimTarget "Bitte passe Auto an" [c10Goal] "a1") := by
  have h1 : detectSavingsDepositIntent "Ich habe 200 bei Auto gespart" [c10Goal] =
      some ⟨200, "a1", "Auto"⟩ := by with_unfolding_all rfl
  have h2 : detectGoalRuleAddIntent "Neue Regel: Kein Kaffee" [c10Goal] =
      some ⟨"a1", "Kein Kaffee"⟩ := by with_unfolding_all rfl
  have h3 : detectGoalRuleRemoveIntent "Regel loeschen: regel 1" [c10Goal] =
      some ⟨"a1", some 0, none⟩ := by with_unfolding_all rfl
  have h4 : detectGoalDeletionIntent "Loesche Auto" [c10Goal] =
      some ⟨"a1", "Auto"⟩ := by with_unfolding_all rfl
  have h5 : detectGoalCompleteIntent "Auto ist erledigt" [c10Goal] =
      some ⟨"a1", "Auto"⟩ := by with_unfolding_all rfl
  have h6 : detectGoalUpdateIntent "Bitte passe Auto an" [c10Goal] =
      some ⟨"a1"⟩ := by with_unfolding_all rfl
  have t1 := C8_theorem "Ich habe 200 bei Auto gespart" [c10Goal]
  have t2 := C8_theorem "Neue Regel: Kein Kaffee" [c10Goal]
  have t3 := C8_theorem "Regel loeschen: regel 1" [c10Goal]
  have t4 := C8_theorem "Loesche Auto" [c10Goal]
  have t5 := C8_theorem "Auto ist erledigt" [c10Goal]
  have t6 := C8_theorem "Bitte passe Auto an" [c10Goal]
  exact ⟨⟨h1, t1.1 _ h1⟩, ⟨h2, t2.2.1 _ h2⟩, ⟨h3, t3.2.2.1 _ h3⟩,
    ⟨h4, t4.2.2.2.1 _ h4⟩, ⟨h5, t5.2.2.2.2.1 _ h5⟩, ⟨h6, t6.2.2.2.2.2.1 _ h6⟩⟩

/-- The synthesized rule list starts with the canonical monthly rule
whenever the agent output carries a nonzero amount and a nonempty date. -/
theorem buildBilingualRules_head (today : YMD) (lang : Lang)
    (trB trA : List String → Option (List String)) (go : SavingsGoalOutput)
    (existing : Option SavingsGoal) (ha : go.targetAmount ≠ 0)
    (hd : go.targetDate ≠ "") :
    (buildBilingualRules today lang trB trA go existing).rules.head? =
      some (monthlyRuleDe
        (calculateMonthlyRate today go.targetAmount go.targetDate)) := by
  simp [buildBilingualRules, ha, hd]

/-- The goal used in the C2 counterexample and witness. -/
def c2Goal : SavingsGoal :=
  { id := "n1", userId := "u1", title := "Velo", targetAmount := 1200,
    targetDate := "2027-10-11", currentSavedAmount := 0,
    rules := [monthlyRuleDe (calculateMonthlyRate ⟨2026, 10, 11⟩ 1200 "2027-10-11"),
      "Impulskäufe vermeiden"],
    rulesEn := none }

/-- C2 (counterexample): the rule-remove operation reachable through the
chat router destroys the rules[0] invariant: the utterance "Regel loeschen:
regel 1" removes index 0, so the stored goal's first rule is no longer the
canonical monthly-transfer rule. -/
theorem C2_counterexample :
    canonicalFirstRule ⟨2026, 10, 11⟩ c2Goal ∧
    detectGoalRuleRemoveIntent "Regel loeschen: regel 1" [c2Goal] =
      some ⟨"n1", some 0, none⟩ ∧
    ruleRemoveStep [c2Goal] ⟨"n1", some 0, none⟩ =
      [{ c2Goal with rules := ["Impulskäufe vermeiden"] }] ∧
    ¬ canonicalFirstRule ⟨2026, 10, 11⟩
      { c2Goal with rules := ["Impulskäufe vermeiden"] } :=
  ⟨rfl, by with_unfolding_all rfl, by with_unfolding_all rfl,
    fun h => absurd (Option.some.inj h)
      (of_decide_eq_true (by with_unfolding_all rfl))⟩

/-- C2 (amended): rules[0] is the canonical monthly-transfer rule after goal
creation and after a full update (for synthesizer outputs with a nonzero
target amount and a nonempty target date), and the deposit, rule-add and
mark-complete operations preserve the invariant — but rule removal can
displace it (see the counterexample). -/
theorem C2_theorem (today : YMD) :
    (∀ (lang : Lang) (trB trA : List String → Option (List String))
      (store : List SavingsGoal) (newId userId : String) (go : SavingsGoalOutput),
      go.targetAmount ≠ 0 → go.targetDate ≠ "" →
      ∀ g, (createGoalStep today lang trB trA store newId userId go).head? = some g →
        canonicalFirstRule today g) ∧
    (∀ (store : List SavingsGoal) (i : DepositIntent),
      (∀ g ∈ store, canonicalFirstRule today g) →
      ∀ g ∈ depositStep store i, canonicalFirstRule today g) ∧
    (∀ (tr : String → Option String) (store : List SavingsGoal)
      (i : RuleAddIntent), (store.map (fun g => g.id)).Nodup →
      (∀ g ∈ store, canonicalFirstRule today g) →
      ∀ g ∈ ruleAddStep tr store i, canonicalFirstRule today g) ∧
    (∀ (store : List SavingsGoal) (i : GoalRefIntent),
      (∀ g ∈ store, canonicalFirstRule today g) →
      ∀ g ∈ completeStep store i, canonicalFirstRule today g) ∧
    (∀ (lang : Lang) (trB trA : List String → Option (List String))
      (store : List SavingsGoal) (i : GoalIdIntent) (go : SavingsGoalOutput),
      go.targetAmount ≠ 0 → go.targetDate ≠ "" →
      ∀ g ∈ updateStep today lang trB trA store i go, g.id = i.goalId →
        canonicalFirstRule today g) := by
  refine ⟨?_, ?_, ?_, ?_, ?_⟩
  · -- creation
    intro lang trB trA store newId userId go ha hd g hg
    simp only [createGoalStep, List.head?_cons, Option.some.injEq] at hg
    subst hg
    exact buildBilingualRules_head today lang trB trA go none ha hd
  · -- deposit
    intro store i hstore g hg
    unfold depositStep at hg
    rcases hf : store.find? (fun g0 => decide (g0.id = i.goalId)) with _ | tg <;>
      rw [hf] at hg
    · exact hstore g hg
    · unfold updateSavingsGoalAmount at hg
      rcases List.mem_map.mp hg with ⟨h, hh, rfl⟩
      by_cases hid : h.id = tg.id
      · rw [if_pos hid]
        exact hstore h hh
      · rw [if_neg hid]
        exact hstore h hh
  · -- rule-add (ids are unique in the store, as in the database)
    intro tr store i hnodup hstore g hg
    unfold ruleAddStep at hg
    rcases hf : store.find? (fun g0 => decide (g0.id = i.goalId)) with _ | tg <;>
      rw [hf] at hg
    · exact hstore g hg
    · unfold updateSavingsGoalRules at hg
      rcases List.mem_map.mp hg with ⟨h, hh, rfl⟩
      by_cases hid : h.id = tg.id
      · rw [if_pos hid]
        have htg : h = tg := List.inj_on_of_nodup_map hnodup hh
          (List.mem_of_find?_eq_some hf) hid
        subst htg
        have hcanh := hstore h hh
        unfold canonicalFirstRule at hcanh ⊢
        simp only [List.head?_append, hcanh]
        rfl
      · rw [if_neg hid]
        exact hstore h hh
  · -- complete
    intro store i hstore g hg
    unfold completeStep markSavingsGoalComplete at hg
    rcases List.mem_map.mp hg with ⟨h, hh, rfl⟩
    by_cases hid : h.id = i.goalId
    · rw [if_pos hid]
      exact hstore h hh
    · rw [if_neg hid]
      exact hstore h hh
  · -- update
    intro lang trB trA store i go ha hd g hg hgid
    unfold updateStep at hg
    rcases hf : store.find? (fun g0 => decide (g0.id = i.goalId)) with _ | tg <;>
      rw [hf] at hg
    · exfalso
      have := List.find?_eq_none.mp hf g hg
      simp only [decide_eq_true_eq] at this
      exact this hgid
    · unfold updateSavingsGoalFields at hg
      rcases List.mem_map.mp hg with ⟨h, hh, rfl⟩
      by_cases hid : h.id = tg.id
      · rw [if_pos hid]
        unfold canonicalFirstRule
        exact buildBilingualRules_head today lang trB trA go (some tg) ha hd
      · rw [if_neg hid] at hgid ⊢
        exfalso
        have hb := List.find?_some hf
        simp only [decide_eq_true_eq] at hb
        exact hid (hgid.trans hb.symm)

/-- The C2 witness's synthesizer outputs and mutated goals. -/
def c2GoOut : SavingsGoalOutput :=
  ⟨"Velo", 1200, "2027-10-11", ["Impulskäufe vermeiden"]⟩

def c2GoOut2 : SavingsGoalOutput := ⟨"Velo neu", 1500, "2027-12-24", []⟩

def c2GoalAdd : SavingsGoal :=
  { c2Goal with
    rules := c2Goal.rules ++ ["Bargeldbezug limitieren"]
    rulesEn := none }

def c2GoalUpd : SavingsGoal :=
  { c2Goal with
    title := "Velo neu"
    targetAmount := 1500
    targetDate := "2027-12-24"
    rules := [monthlyRuleDe (calculateMonthlyRate ⟨2026, 10, 11⟩ 1500 "2027-12-24")]
    rulesEn := none }

/-- C2 (witness): the amended invariant exercised concretely — creation
establishes it, deposit, rule-add and mark-complete preserve it, and a full
update re-establishes it for the new amount and date. -/
theorem C2_witness :
    ((createGoalStep ⟨2026, 10, 11⟩ .de (fun _ => none) (fun _ => none) [] "n1"
        "u1" c2GoOut).head? = some c2Goal ∧
      canonicalFirstRule ⟨2026, 10, 11⟩ c2Goal) ∧
    (depositStep [c2Goal] ⟨200, "n1", "Velo"⟩ =
        [{ c2Goal with currentSavedAmount := 200 }] ∧
      canonicalFirstRule ⟨2026, 10, 11⟩ { c2Goal with currentSavedAmount := 200 }) ∧
    (ruleAddStep (fun _ => none) [c2Goal] ⟨"n1", "Bargeldbezug limitieren"⟩ =
        [c2GoalAdd] ∧
      canonicalFirstRule ⟨2026, 10, 11⟩ c2GoalAdd) ∧
    (completeStep [c2Goal] ⟨"n1", "Velo"⟩ =
        [{ c2Goal with currentSavedAmount := 1200 }] ∧
      canonicalFirstRule ⟨2026, 10, 11⟩ { c2Goal with currentSavedAmount := 1200 }) ∧
    (updateStep ⟨2026, 10, 11⟩ .de (fun _ => none) (fun _ => none) [c2Goal] ⟨"n1"⟩
        c2GoOut2 = [c2GoalUpd] ∧
      canonicalFirstRule ⟨2026, 10, 11⟩ c2GoalUpd) := by
  have hcan : canonicalFirstRule ⟨2026, 10, 11⟩ c2Goal := rfl
  have hstore : ∀ g ∈ [c2Goal], canonicalFirstRule ⟨2026, 10, 11⟩ g := by
    intro g hg
    rw [List.mem_singleton] at hg
    subst hg
    exact hcan
  have ha : c2GoOut.targetAmount ≠ 0 := by norm_num [c2GoOut]
  have hd : c2GoOut.targetDate ≠ "" := by decide
  have ha2 : c2GoOut2.targetAmount ≠ 0 := by norm_num [c2GoOut2]
  have hd2 : c2GoOut2.targetDate ≠ "" := by decide
  have e1 : (createGoalStep ⟨2026, 10, 11⟩ .de (fun _ => none) (fun _ => none) []
      "n1" "u1" c2GoOut).head? = some c2Goal := by with_unfolding_all rfl
  have e2 : depositStep [c2Goal] ⟨200, "n1", "Velo"⟩ =
      [{ c2Goal with currentSavedAmount := 200 }] := by with_unfolding_all rfl
  have e3 : ruleAddStep (fun _ => none) [c2Goal] ⟨"n1", "Bargeldbezug limitieren"⟩ =
      [c2GoalAdd] := by with_unfolding_all rfl
  have e4 : completeStep [c2Goal] ⟨"n1", "Velo"⟩ =
      [{ c2Goal with currentSavedAmount := 1200 }] := by with_unfolding_all rfl
  have e5 : updateStep ⟨2026, 10, 11⟩ .de (fun _ => none) (fun _ => none) [c2Goal]
      ⟨"n1"⟩ c2GoOut2 = [c2GoalUpd] := by with_unfolding_all rfl
  refine ⟨⟨e1, ?_⟩, ⟨e2, ?_⟩, ⟨e3, ?_⟩, ⟨e4, ?_⟩, ⟨e5, ?_⟩⟩
  · exact (C2_theorem ⟨2026, 10, 11⟩).1 .de (fun _ => none) (fun _ => none) []
      "n1" "u1" c2GoOut ha hd c2Goal e1
  · exact (C2_theorem ⟨2026, 10, 11⟩).2.1 [c2Goal] ⟨200, "n1", "Velo"⟩ hstore _
      (by rw [e2]; exact List.mem_singleton_self _)
  · exact (C2_theorem ⟨2026, 10, 11⟩).2.2.1 (fun _ => none) [c2Goal]
      ⟨"n1", "Bargeldbezug limitieren"⟩ (by simp) hstore _
      (by rw [e3]; exact List.mem_singleton_self _)
  · exact (C2_theorem ⟨2026, 10, 11⟩).2.2.2.1 [c2Goal] ⟨"n1", "Velo"⟩ hstore _
      (by rw [e4]; exact List.mem_singleton_self _)
  · exact (C2_theorem ⟨2026, 10, 11⟩).2.2.2.2 .de (fun _ => none) (fun _ => none)
      [c2Goal] ⟨"n1"⟩ c2GoOut2 ha2 hd2 _
      (by rw [e5]; exact List.mem_singleton_self _) rfl

/-- Occurrence count of a transaction appended on the right. -/
theorem filter_merchant_append (l : List Transaction) (t : Transaction)
    (m : String) :
    ((l ++ [t]).filter (fun x => decide (x.merchant = m))).length =
      (l.filter (fun x => decide (x.merchant = m))).length +
        (if t.merchant = m then 1 else 0) := by
  rw [List.filter_append, List.length_append]
  congr 1
  by_cases h : t.merchant = m
  · simp [List.filter_cons, h]
  · simp [List.filter_cons, h]

/-- The merchant map is exact: each entry's count is the number of
transactions with that merchant, and merchants absent from the map do not
occur at all. -/
theorem merchantGroups_spec (ts : List Transaction) :
    (∀ p ∈ merchantGroups ts,
      p.2.count = (ts.filter (fun x => decide (x.merchant = p.1))).length) ∧
    (∀ m, (∀ p ∈ merchantGroups ts, p.1 ≠ m) →
      (ts.filter (fun x => decide (x.merchant = m))).length = 0) := by
  induction ts using List.reverseRecOn with
  | nil => exact ⟨by intro p hp; simp [merchantGroups] at hp, by intro m _; simp⟩
  | append_singleton l t ih =>
    obtain ⟨ih1, ih2⟩ := ih
    have hmg : merchantGroups (l ++ [t]) =
        upsertMerchant (merchantGroups l) t.merchant (absAmount t) := by
      simp [merchantGroups, List.foldl_append]
    constructor
    · intro p hp
      rw [hmg] at hp
      unfold upsertMerchant at hp
      by_cases hany : (merchantGroups l).any
          (fun p0 => decide (p0.1 = t.merchant)) = true
      · rw [if_pos hany] at hp
        rcases List.mem_map.mp hp with ⟨p0, hp0, rfl⟩
        by_cases heq : p0.1 = t.merchant
        · rw [if_pos heq]
          rw [filter_merchant_append l t p0.1, ← ih1 p0 hp0]
          have : t.merchant = p0.1 := heq.symm
          simp [this]
        · rw [if_neg heq]
          rw [filter_merchant_append l t p0.1, ← ih1 p0 hp0]
          have : t.merchant ≠ p0.1 := fun h => heq h.symm
          simp [this]
      · rw [if_neg hany] at hp
        rcases List.mem_append.mp hp with hp | hp
        · have hne : t.merchant ≠ p.1 := by
            intro he
            exact hany (List.any_eq_true.mpr ⟨p, hp, by simp [he.symm]⟩)
          rw [filter_merchant_append l t p.1, ← ih1 p hp]
          simp [hne]
        · rw [List.mem_singleton] at hp
          subst hp
          rw [filter_merchant_append l t t.merchant]
          have h0 : (l.filter (fun x => decide (x.merchant = t.merchant))).length
              = 0 := by
            apply ih2
            intro p0 hp0 he
            exact hany (List.any_eq_true.mpr ⟨p0, hp0, by simp [he]⟩)
          simp [h0]
    · intro m hm
      rw [hmg] at hm
      unfold upsertMerchant at hm
      by_cases hany : (merchantGroups l).any
          (fun p0 => decide (p0.1 = t.merchant)) = true
      · rw [if_pos hany] at hm
        rcases List.any_eq_true.mp hany with ⟨pt, hpt, hptm⟩
        simp only [decide_eq_true_eq] at hptm
        have htm : t.merchant ≠ m := by
          intro he
          exact hm (if pt.1 = t.merchant then (pt.1, ⟨pt.2.count + 1,
              pt.2.total + absAmount t, pt.2.amounts ++ [absAmount t]⟩) else pt)
            (List.mem_map.mpr ⟨pt, hpt, rfl⟩)
            (by rw [if_pos hptm]; rw [hptm, he])
        have habs : ∀ p ∈ merchantGroups l, p.1 ≠ m := by
          intro p hp
          have := hm (if p.1 = t.merchant then (p.1, ⟨p.2.count + 1,
              p.2.total + absAmount t, p.2.amounts ++ [absAmount t]⟩) else p)
            (List.mem_map.mpr ⟨p, hp, rfl⟩)
          by_cases hpe : p.1 = t.merchant
          · rw [if_pos hpe] at this
            exact this
          · rw [if_neg hpe] at this
            exact this
        rw [filter_merchant_append l t m, ih2 m habs]
        simp [htm]
      · rw [if_neg hany] at hm
        have habs : ∀ p ∈ merchantGroups l, p.1 ≠ m := by
          intro p hp
          exact hm p (List.mem_append.mpr (Or.inl hp))
        have htm : t.merchant ≠ m :=
          hm (t.merchant, ⟨1, absAmount t, [absAmount t]⟩)
            (List.mem_append.mpr (Or.inr (List.mem_singleton_self _)))
        rw [filter_merchant_append l t m, ih2 m habs]
        simp [htm]

/-- Every entry of the recurring-candidate list satisfies the documented
filters and carries the exact occurrence count of its merchant. -/
theorem recurringList_mem_spec {ts : List Transaction} {r : RecurringEntry}
    (hr : r ∈ recurringList ts) :
    3 ≤ r.count ∧ r.varianceRatio ≤ 3 / 10 ∧
    r.count = (ts.filter (fun x => decide (x.merchant = r.merchant))).length := by
  unfold recurringList at hr
  rw [mem_sortByDesc] at hr
  rcases List.mem_filter.mp hr with ⟨hmap, hratio⟩
  rcases List.mem_map.mp hmap with ⟨p, hp, rfl⟩
  rcases List.mem_filter.mp hp with ⟨hpg, hcnt⟩
  refine ⟨by simpa using hcnt, by simpa using hratio, ?_⟩
  simpa using (merchantGroups_spec ts).1 p hpg

/-- C6: the recurring-merchant nudge comes from the head of the sorted
candidate list: it requires at least 3 occurrences (so 2 identical payments
never qualify) and a variance ratio of at most 0.3, its count is the exact
number of transactions with that merchant, and its average×count dominates
every qualifying candidate; no nudge is emitted when no merchant
qualifies. -/
theorem C6_theorem (ts : List Transaction) :
    (∀ r rest, recurringList ts = r :: rest →
      3 ≤ r.count ∧ r.varianceRatio ≤ 3 / 10 ∧
      r.count = (ts.filter (fun x => decide (x.merchant = r.merchant))).length ∧
      (∀ s ∈ recurringList ts, s.avg * (s.count : ℚ) ≤ r.avg * (r.count : ℚ)) ∧
      recurringPattern ts = ["Wiederkehrende Zahlungen: " ++ r.merchant ++
        " (" ++ toString r.count ++ "x, Ø " ++ fmt2 r.avg ++
        " CHF). Prüfe, ob du das Abo brauchst."]) ∧
    (∀ m, (ts.filter (fun x => decide (x.merchant = m))).length = 2 →
      ∀ r ∈ recurringList ts, r.merchant ≠ m) ∧
    (recurringList ts = [] → recurringPattern ts = []) := by
  refine ⟨?_, ?_, ?_⟩
  · intro r rest hs
    have hrmem : r ∈ recurringList ts := by
      rw [hs]
      exact List.mem_cons_self r rest
    obtain ⟨h3, hratio, hcount⟩ := recurringList_mem_spec hrmem
    refine ⟨h3, hratio, hcount, ?_, ?_⟩
    · intro s hsmem
      unfold recurringList at hs
      have := (sortByDesc_head_max (fun r0 => r0.avg * (r0.count : ℚ)) _ r rest hs).2
      unfold recurringList at hsmem
      rw [mem_sortByDesc] at hsmem
      exact this s hsmem
    · unfold recurringPattern
      rw [hs]
  · intro m h2 r hr hrm
    obtain ⟨h3, _, hcount⟩ := recurringList_mem_spec hr
    rw [hrm] at hcount
    rw [h2] at hcount
    omega
  · intro hnil
    unfold recurringPattern
    rw [hnil]

/-- A transaction for the C6 witness. -/
def c6Tx (i d m : String) (a : ℚ) : Transaction :=
  { id := i, userId := "u1", date := d, merchant := m, amount := a,
    rawCategory := none, justification := none, category := "Abos",
    isImpulse := false, decisionLabel := .useful, decisionExplanation := "ok" }

/-- Three identical Netflix payments and two identical Coop payments. -/
def c6Ts : List Transaction :=
  [c6Tx "1" "2026-10-01" "Netflix" (159 / 10), c6Tx "2" "2026-10-02" "Coop" 50,
    c6Tx "3" "2026-10-08" "Netflix" (159 / 10), c6Tx "4" "2026-10-09" "Coop" 50,
    c6Tx "5" "2026-10-15" "Netflix" (159 / 10)]

def c6Entry : RecurringEntry := ⟨"Netflix", 3, 159 / 10, 0⟩

/-- C6 (witness): on the concrete history, Netflix (3×, constant amount)
is the single candidate and is reported, while Coop — 2 identical payments
— is never flagged. -/
theorem C6_witness :
    recurringList c6Ts = [c6Entry] ∧
    3 ≤ c6Entry.count ∧
    c6Entry.varianceRatio ≤ 3 / 10 ∧
    c6Entry.count = (c6Ts.filter (fun x => decide (x.merchant =
      c6Entry.merchant))).length ∧
    recurringPattern c6Ts = ["Wiederkehrende Zahlungen: Netflix (3x, Ø 15.90 CHF). Prüfe, ob du das Abo brauchst."] ∧
    (c6Ts.filter (fun x => decide (x.merchant = "Coop"))).length = 2 ∧
    c6Entry.merchant ≠ "Coop" := by
  have he : recurringList c6Ts = [c6Entry] := by with_unfolding_all rfl
  have h := (C6_theorem c6Ts).1 c6Entry [] he
  have hcoop : (c6Ts.filter (fun x => decide (x.merchant = "Coop"))).length = 2 := by
    with_unfolding_all rfl
  have hb := (C6_theorem c6Ts).2.1 "Coop" hcoop c6Entry
    (by rw [he]; exact List.mem_singleton_self _)
  refine ⟨he, h.1, h.2.1, h.2.2.1, ?_, hcoop, hb⟩
  rw [h.2.2.2.2]
  with_unfolding_all rfl

/-! Lemmas for C5: the pattern list is never empty, never exceeds 3, and
carries the no-spending message exactly for an empty expense set. -/

theorem upsertAdd_ne_nil (m : List (String × ℚ)) (k : String) (q : ℚ) :
    upsertAdd m k q ≠ [] := by
  unfold upsertAdd
  split
  · intro he
    rename_i hany
    rw [List.map_eq_nil_iff] at he
    subst he
    simp at hany
  · simp

theorem foldl_upsertAdd_ne_nil (ts : List Transaction)
    (acc : List (String × ℚ)) (h : acc ≠ []) :
    ts.foldl (fun m t => upsertAdd m t.category (absAmount t)) acc ≠ [] := by
  induction ts generalizing acc with
  | nil => exact h
  | cons t ts ih => exact ih _ (upsertAdd_ne_nil acc t.category (absAmount t))

theorem categoryTotals_ne_nil (t : Transaction) (rest : List Transaction) :
    categoryTotals (t :: rest) ≠ [] := by
  unfold categoryTotals
  rw [List.foldl_cons]
  exact foldl_upsertAdd_ne_nil rest _ (upsertAdd_ne_nil [] t.category (absAmount t))

theorem insertDesc_ne_nil {α : Type} (key : α → ℚ) (a : α) (l : List α) :
    insertDesc key a l ≠ [] := by
  cases l with
  | nil => simp [insertDesc]
  | cons b bs =>
      unfold insertDesc
      split <;> simp

theorem sortByDesc_ne_nil {α : Type} (key : α → ℚ) (l : List α) (h : l ≠ []) :
    sortByDesc key l ≠ [] := by
  cases l with
  | nil => exact absurd rfl h
  | cons a as => exact insertDesc_ne_nil key a (sortByDesc key as)

theorem topCategoryPattern_nonempty (t : Transaction) (rest : List Transaction) :
    topCategoryPattern (t :: rest) ≠ [] := by
  unfold topCategoryPattern
  have h1 := categoryTotals_ne_nil t rest
  rw [if_neg (by simpa [List.isEmpty_iff] using h1)]
  have h2 := sortByDesc_ne_nil (fun p => p.2) _ h1
  rcases hs : sortByDesc (fun p => p.2) (categoryTotals (t :: rest)) with _ | ⟨p, ps⟩
  · exact absurd hs h2
  · rw [hs]
    simp

theorem ne_noSpending_of_char {x : String} (c : Char) (h1 : c ∈ x.data)
    (h2 : c ∉ noSpendingMsg.data) : x ≠ noSpendingMsg :=
  fun he => h2 (he ▸ h1)

theorem topCategoryPattern_ne (ts : List Transaction) :
    ∀ x ∈ topCategoryPattern ts, x ≠ noSpendingMsg := by
  intro x hx
  simp only [topCategoryPattern] at hx
  split at hx
  · simp at hx
  · split at hx
    · simp at hx
    · rw [List.mem_singleton] at hx
      subst hx
      have hmem : '%' ∈ "% deiner Ausgaben aus (".data := by decide
      refine ne_noSpending_of_char '%' ?_ (by decide)
      simp only [String.data_append, List.mem_append]
      tauto

theorem budgetPacePattern_ne (now : ℚ) (input : PatternInput) :
    ∀ x ∈ budgetPacePattern now input, x ≠ noSpendingMsg := by
  intro x hx
  simp only [budgetPacePattern] at hx
  split at hx
  · split at hx
    · split at hx
      · rw [List.mem_singleton] at hx
        subst hx
        have hmem : '~' ∈
            "Budgetwarnung: Du liegst über Plan. Hochrechnung: ~".data := by decide
        refine ne_noSpending_of_char '~' ?_ (by decide)
        simp only [String.data_append, List.mem_append]
        tauto
      · split at hx
        · rw [List.mem_singleton] at hx
          subst hx
          decide
        · simp at hx
    · simp at hx
  · simp at hx

theorem trendPattern_ne (input : PatternInput) :
    ∀ x ∈ trendPattern input, x ≠ noSpendingMsg := by
  intro x hx
  simp only [trendPattern] at hx
  split at hx
  · rw [List.mem_singleton] at hx
    subst hx
    decide
  · split at hx
    · rw [List.mem_singleton] at hx
      subst hx
      decide
    · simp at hx

theorem impulsePattern_ne (ts : List Transaction) :
    ∀ x ∈ impulsePattern ts, x ≠ noSpendingMsg := by
  intro x hx
  simp only [impulsePattern] at hx
  split at hx
  · simp at hx
  · rw [List.mem_singleton] at hx
    subst hx
    have hmem : '%' ∈
        "% deiner Käufe sind Impulskäufe. Versuche, vor dem Kauf eine Pause einzulegen.".data := by
      decide
    refine ne_noSpending_of_char '%' ?_ (by decide)
    simp only [String.data_append, List.mem_append]
    tauto

theorem recurringPattern_ne (ts : List Transaction) :
    ∀ x ∈ recurringPattern ts, x ≠ noSpendingMsg := by
  intro x hx
  simp only [recurringPattern] at hx
  split at hx
  · simp at hx
  · rw [List.mem_singleton] at hx
    subst hx
    have hmem : '(' ∈ " (".data := by decide
    refine ne_noSpending_of_char '(' ?_ (by decide)
    simp only [String.data_append, List.mem_append]
    tauto

theorem weekdayPattern_ne (ts : List Transaction) :
    ∀ x ∈ weekdayPattern ts, x ≠ noSpendingMsg := by
  intro x hx
  simp only [weekdayPattern] at hx
  split at hx
  · simp at hx
  · split at hx
    · simp at hx
    · rw [List.mem_singleton] at hx
      subst hx
      have hmem : '(' ∈ " ist dein teuerster Tag (Durchschnitt ".data := by decide
      refine ne_noSpending_of_char '(' ?_ (by decide)
      simp only [String.data_append, List.mem_append]
      tauto

/-- C5: the pattern detector returns at most 3 messages and never an empty
list; the output is the single no-spending placeholder exactly when the
expense set is empty, and for a non-empty expense set the placeholder never
appears among the returned messages. -/
theorem C5_theorem (now : ℚ) (input : PatternInput) :
    (detectPatterns now input).length ≤ 3 ∧
    detectPatterns now input ≠ [] ∧
    (detectPatterns now input = [noSpendingMsg] ↔ input.transactions = []) ∧
    (noSpendingMsg ∈ detectPatterns now input ↔ input.transactions = []) := by
  rcases hts : input.transactions with _ | ⟨t, rest⟩
  · have hd : detectPatterns now input = [noSpendingMsg] := by
      unfold detectPatterns
      rw [hts]
      rfl
    refine ⟨by rw [hd]; simp, by rw [hd]; simp, by rw [hd]; simp, by rw [hd]; simp⟩
  · have hd : detectPatterns now input =
        (topCategoryPattern (t :: rest) ++ budgetPacePattern now input ++
          trendPattern input ++ impulsePattern (t :: rest) ++
          recurringPattern (t :: rest) ++ weekdayPattern (t :: rest)).take 3 := by
      unfold detectPatterns
      rw [hts]
      rfl
    have hnotin : noSpendingMsg ∉ detectPatterns now input := by
      rw [hd]
      intro hmem
      have hmem2 := List.take_subset 3 _ hmem
      simp only [List.mem_append] at hmem2
      rcases hmem2 with ((((h | h) | h) | h) | h) | h
      · exact topCategoryPattern_ne _ _ h rfl
      · exact budgetPacePattern_ne now input _ h rfl
      · exact trendPattern_ne input _ h rfl
      · exact impulsePattern_ne _ _ h rfl
      · exact recurringPattern_ne _ _ h rfl
      · exact weekdayPattern_ne _ _ h rfl
    refine ⟨?_, ?_, ?_, ?_⟩
    · rw [hd, List.length_take]
      exact min_le_left _ _
    · rw [hd]
      rcases hA : topCategoryPattern (t :: rest) with _ | ⟨a, as⟩
      · exact absurd hA (topCategoryPattern_nonempty t rest)
      · simp
    · constructor
      · intro he
        rw [he] at hnotin
        exact absurd (List.mem_singleton_self noSpendingMsg) hnotin
      · intro he
        exact absurd he (List.cons_ne_nil t rest)
    · constructor
      · intro hmem
        exact absurd hmem hnotin
      · intro he
        exact absurd he (List.cons_ne_nil t rest)

end SmartBudget
